import Mathlib

/-!
Verification development for the famAI pipeline.

This file gives a shallow embedding of the core pipeline of the repository:
the heuristic SIR extractor and SIR generator (`BIMLLMService`), the QA
Gateway validation passes (`services/QAGateway.js`), the SIR-to-code
interpreter (`services/SIRToCodeInterpreter.js`), the SIR-to-backend
parameter conversion and submission error handling (`routes/auth.js`),
and the simulated job tracker (`routes/auth.js`, status route).

Conventions of the embedding:
* JavaScript numbers are modelled as rationals (`Rat`); all arithmetic in
  the embedded code is exact division / multiplication, matching the
  source formulas symbolically.
* Timestamps are passed explicitly (`new Date()` becomes a parameter).
* Fallible code returns `Option` / `Except`.
-/

namespace FamAI

/-! ## Simulated job tracker (routes/auth.js, GET /status/:workitemId, aps_ branch)

The route computes elapsed seconds since the workitem's creation and derives
a coarse status, a progress percentage and a message from fixed thresholds
(3 s / 8 s / 15 s with `totalSimulatedTime = 15`).  It then writes the
derived status, progress and message plus a fresh `lastChecked` stamp back
into the stored record.
-/

/-- Total simulated duration of a fallback-mode job, in seconds
(line 859 of routes/auth.js). -/
def totalSimulatedTime : ℚ := 15

/-- Derived status string of a simulated job after `elapsed` seconds,
mirroring the `if/else if` ladder at lines 863-883 of routes/auth.js. -/
def simStatus (elapsed : ℚ) : String :=
  if elapsed < 3 then "submitted"
  else if elapsed < 8 then "inprogress"
  else if elapsed < totalSimulatedTime then "inprogress"
  else "success"

/-- Derived progress percentage of a simulated job after `elapsed` seconds
(lines 863-883 of routes/auth.js). -/
def simProgress (elapsed : ℚ) : ℚ :=
  if elapsed < 3 then min 25 (elapsed / totalSimulatedTime * 100)
  else if elapsed < 8 then min 75 (25 + (elapsed - 3) / (totalSimulatedTime - 3) * 50)
  else if elapsed < totalSimulatedTime then
    min 95 (75 + (elapsed - 8) / (totalSimulatedTime - 8) * 20)
  else 100

/-- Derived user message of a simulated job after `elapsed` seconds. -/
def simMessage (elapsed : ℚ) : String :=
  if elapsed < 3 then "Workitem submitted to APS Design Automation"
  else if elapsed < 8 then "Creating Revit family file..."
  else if elapsed < totalSimulatedTime then "Finalizing family file..."
  else "Family creation completed successfully"

/-- Status-only progress helper `getProgressFromStatus` at lines 1192-1201 of
routes/auth.js: a fixed switch over the status vocabulary, with no dependence
on elapsed time. -/
def getProgressFromStatus (status : String) : ℚ :=
  if status = "pending" then 10
  else if status = "inprogress" then 50
  else if status = "success" then 100
  else if status = "failed" then 0
  else if status = "cancelled" then 0
  else 25

/-- The progress law claimed by the specification (written from the spec's
words, for comparison with the code's `simProgress`): while `submitted`,
progress ramps linearly from 5 to 20 over the first 30 elapsed seconds capped
at 20; while `inprogress`, from 20 to 90 over the next 120 seconds capped at
90; on `success`, 100. -/
def specClaimedProgress (status : String) (elapsed : ℚ) : ℚ :=
  if status = "submitted" then min 20 (5 + elapsed / 30 * 15)
  else if status = "inprogress" then min 90 (20 + elapsed / 120 * 70)
  else if status = "success" then 100
  else 0

/-- Stored record of a tracked workitem, as assembled at lines 2268-2280 and
2307-2319 of routes/auth.js.  The type of the submitted parameter payload is
abstract (`P`); `createdAt` and `lastChecked` are epoch milliseconds. -/
structure WorkitemData (P : Type) where
  id : String
  status : String
  createdAt : ℚ
  params : P
  apsParams : P
  progress : ℚ
  message : String
  estimatedTime : String
  isRealAPS : Bool
  bucketKey : String
  outputObjectKey : String
  lastChecked : Option ℚ

/-- Effect of one poll of the simulated status route on the stored record
(lines 858-889 of routes/auth.js): elapsed seconds are derived from `now`
and `createdAt`, and only `status`, `progress`, `message` and `lastChecked`
are written back. -/
def pollUpdate {P : Type} (w : WorkitemData P) (now : ℚ) : WorkitemData P :=
  let elapsed := (now - w.createdAt) / 1000
  { w with
    status := simStatus elapsed
    progress := simProgress elapsed
    message := simMessage elapsed
    lastChecked := some now }

/-! ## SIR data model

The Structured Intermediate Representation as produced by `BIMLLMService`
and consumed by `QAGateway`, `SIRToCodeInterpreter` and
`convertSIRToAPSParams`.  JavaScript dynamic values appearing as parameter
values are modelled by `JVal`; fields that can be absent (`undefined`) in
the source objects are `Option`s.
-/

/-- A 2-D profile point. -/
structure Pt2 where
  x : ℚ
  y : ℚ
deriving DecidableEq

/-- A 3-D point. -/
structure Pt3 where
  x : ℚ
  y : ℚ
  z : ℚ
deriving DecidableEq

/-- One extrusion of the geometry definition. -/
structure Extrusion where
  name : String
  profile : List Pt2
  startPoint : Pt3
  endPoint : Pt3
  material : String
deriving DecidableEq

/-- A reference plane with an origin and a normal vector. -/
structure RefPlane where
  name : String
  origin : Pt3
  normal : Pt3
  locked : Bool
deriving DecidableEq

/-- A geometric constraint between two (possibly missing) elements. -/
structure SIRConstraint where
  element1 : Option String
  element2 : Option String
  constraintKind : String
  offset : ℚ
deriving DecidableEq

/-- Family metadata of a SIR. -/
structure FamilyMetadata where
  familyName : String
  category : String
  description : String
  lodLevel : ℤ
  isHosted : Bool
  hostingType : Option String
deriving DecidableEq

/-- A dynamic JavaScript value used as a parameter value. -/
inductive JVal where
  | num (q : ℚ)
  | str (s : String)
  | boolean (b : Bool)
deriving DecidableEq

/-- One family parameter definition. -/
structure FamilyParam where
  name : String
  ptype : String
  group : Option String
  isInstance : Bool
  defaultValue : Option JVal
  formula : Option String
deriving DecidableEq

/-- One family type: a name plus parameter-name/value bindings (object keys
in insertion order). -/
structure FamilyType where
  name : String
  parameters : List (String × JVal)
deriving DecidableEq

/-- The `parameters` section of a SIR. -/
structure SIRParameters where
  familyParameters : List FamilyParam
  familyTypes : List FamilyType
deriving DecidableEq

/-- One material entry. -/
structure MaterialDef where
  name : String
  parameterName : Option String
  defaultValue : Option String
  color : Option String
deriving DecidableEq

/-- The geometry definition of a SIR.  An absent (`undefined`) plane or
constraint array behaves exactly like an empty one in every embedded
operation, so both are modelled as `[]`. -/
structure GeometryDefinition where
  extrusions : List Extrusion
  referencePlanes : List RefPlane
  constraints : List SIRConstraint
deriving DecidableEq

/-- Per-detail-level visibility element lists. -/
structure VisibilitySettings where
  coarse : List String
  medium : List String
  fine : List String
deriving DecidableEq

/-- The Structured Intermediate Representation.  `visibilitySettings` is an
`Option` because the heuristic extractor's SIR does not carry that key. -/
structure SIR where
  familyMetadata : FamilyMetadata
  geometryDefinition : GeometryDefinition
  parameters : SIRParameters
  materials : List MaterialDef
  visibilitySettings : Option VisibilitySettings
deriving DecidableEq

/-! ## String helpers shared by the embedded modules -/

/-- ASCII lower-casing of one character (`String.prototype.toLowerCase` on
the ASCII inputs handled by the pipeline). -/
def asciiLower (c : Char) : Char :=
  if 'A' ≤ c ∧ c ≤ 'Z' then Char.ofNat (c.toNat + 32) else c

/-- Lower-case an entire string. -/
def lowerStr (s : String) : String :=
  String.mk (s.data.map asciiLower)

/-- Substring test on character lists (`String.prototype.includes`). -/
def hasSub (needle : List Char) : List Char → Bool
  | [] => needle.isEmpty
  | c :: cs => needle.isPrefixOf (c :: cs) || hasSub needle cs

/-- Substring test on strings. -/
def strIncludes (hay needle : String) : Bool :=
  hasSub needle.data hay.data

/-- JavaScript whitespace characters occurring in the pipeline's strings. -/
def isSpaceChar (c : Char) : Bool :=
  c = ' ' || c = '\t' || c = '\n' || c = '\r'

/-- `String.prototype.trim`. -/
def trimStr (s : String) : String :=
  String.mk (((s.data.dropWhile isSpaceChar).reverse.dropWhile isSpaceChar).reverse)

/-- A `\w` word character: ASCII letter, digit or underscore. -/
def isWordChar (c : Char) : Bool :=
  c.isAlpha || c.isDigit || c = '_'

/-- The parameter-name pattern `^[a-zA-Z][a-zA-Z0-9_]*$` from
`QAGateway.validateParameters`. -/
def isValidParamName (s : String) : Bool :=
  match s.data with
  | [] => false
  | c :: cs => c.isAlpha && cs.all isWordChar

/-- JavaScript numeric coercion `Number(string)` restricted to the plain
finite decimal literals that occur in this pipeline: optional sign, digits,
optional fractional digits.  The empty (or all-space) string coerces to 0.
`none` stands for `NaN`. -/
def jsToNumber (s : String) : Option ℚ :=
  let t := (trimStr s).data
  if t = [] then some 0
  else
    let (sign, u) : ℚ × List Char :=
      match t with
      | '-' :: rest => (-1, rest)
      | '+' :: rest => (1, rest)
      | rest => (1, rest)
    let intPart := u.takeWhile Char.isDigit
    let rest := u.dropWhile Char.isDigit
    let readNat : List Char → ℕ := fun ds => ds.foldl (fun n c => 10 * n + (c.toNat - 48)) 0
    match rest with
    | [] =>
      if intPart = [] then none
      else some (sign * (readNat intPart : ℚ))
    | '.' :: frac =>
      if frac.all Char.isDigit ∧ (intPart ≠ [] ∨ frac ≠ []) then
        some (sign * ((readNat intPart : ℚ) + (readNat frac : ℚ) / (10 : ℚ) ^ frac.length))
      else none
    | _ => none

/-- `isNaN(value)` is false exactly when the string coerces to a number. -/
def jsIsNumericStr (s : String) : Bool :=
  (jsToNumber s).isSome

/-- Digits of a natural number, most significant first (the fuel equals the
number itself, which bounds the digit count). -/
def natToStrGo : Nat → Nat → List Char → List Char
  | 0, n, acc => Char.ofNat (48 + n % 10) :: acc
  | fuel + 1, n, acc =>
    if n < 10 then Char.ofNat (48 + n) :: acc
    else natToStrGo fuel (n / 10) (Char.ofNat (48 + n % 10) :: acc)

/-- Decimal rendering of a natural number. -/
def natToStr (n : Nat) : String :=
  String.mk (natToStrGo n n [])

/-- Decimal rendering of an integer (the template-literal rendering of a
JavaScript integer). -/
def intStr (i : ℤ) : String :=
  if i < 0 then "-" ++ natToStr i.natAbs else natToStr i.natAbs

/-! ## QA Gateway (services/QAGateway.js)

Each validation pass produces a record with a boolean pass flag, issue and
warning string lists, and a score that starts at 100 and is decremented by
fixed deductions.  The source applies no lower bound to the score.
-/

/-- Per-pass validation record. -/
structure ValidationResult where
  pass : Bool
  issues : List String
  warnings : List String
  score : ℤ
deriving DecidableEq

/-- The fresh record every pass starts from. -/
def freshResult : ValidationResult :=
  { pass := true, issues := [], warnings := [], score := 100 }

/-- Record an issue: push the message, clear the pass flag and deduct
`d` points (the source's `issues.push(...); pass = false; score -= d`). -/
def addIssue (r : ValidationResult) (msg : String) (d : ℤ) : ValidationResult :=
  { r with issues := r.issues ++ [ msg], pass := false, score := r.score - d }

/-- Record a warning: push the message and deduct `d` points. -/
def addWarning (r : ValidationResult) (msg : String) (d : ℤ) : ValidationResult :=
  { r with warnings := r.warnings ++ [ msg], score := r.score - d }

/-- Per-extrusion checks of `validateGeometry` (lines 81-102): profile with
fewer than 3 points, zero extrusion height, and a high-complexity warning
above 20 profile points. -/
def geomExtrusionCheck (r : ValidationResult) (ext : Extrusion) : ValidationResult :=
  let r := if ext.profile.length < 3 then
      addIssue r ( "Extrusion " ++ ext.name ++ " has invalid profile (minimum 3 points required)") 20
    else r
  let r := if |ext.endPoint.z - ext.startPoint.z| ≤ 0 then
      addIssue r ( "Extrusion " ++ ext.name ++ " has zero or negative height") 15
    else r
  if 20 < ext.profile.length then
    addWarning r ( "Extrusion " ++ ext.name ++ " has high complexity (" ++
      toString ext.profile.length ++ " points)") 5
  else r

/-- Per-reference-plane check of `validateGeometry` (lines 106-117): the
normal must be a unit vector, `|‖n‖ - 1| ≤ 0.001`.  The source compares the
square root of the squared magnitude; squaring the (non-negative) bounds
gives the exact rational equivalent used here:
`0.999² ≤ x²+y²+z² ≤ 1.001²`. -/
def geomPlaneCheck (r : ValidationResult) (plane : RefPlane) : ValidationResult :=
  let sq := plane.normal.x ^ 2 + plane.normal.y ^ 2 + plane.normal.z ^ 2
  if ¬ ((999 / 1000 : ℚ) ^ 2 ≤ sq ∧ sq ≤ (1001 / 1000 : ℚ) ^ 2) then
    addIssue r ( "Reference plane " ++ plane.name ++ " has invalid normal vector") 10
  else r

/-- Truthiness of an optional string: absent and empty are falsy. -/
def strFalsy : Option String → Bool
  | none => true
  | some s => s = ""

/-- Per-constraint check of `validateGeometry` (lines 120-128). -/
def geomConstraintCheck (r : ValidationResult) (ic : ℕ × SIRConstraint) : ValidationResult :=
  if strFalsy ic.2.element1 || strFalsy ic.2.element2 then
    addIssue r ( "Constraint " ++ toString ic.1 ++ " has missing elements") 10
  else r

/-- `QAGateway.validateGeometry` (lines 63-153).  The `try/catch` of the
source only fires on malformed dynamic input, which the typed SIR rules
out. -/
def validateGeometry (sir : SIR) : ValidationResult :=
  let r := freshResult
  let r := if sir.geometryDefinition.extrusions.length = 0 then
      addIssue r ( "No extrusions defined in geometry") 30
    else r
  let r := sir.geometryDefinition.extrusions.foldl geomExtrusionCheck r
  let r := sir.geometryDefinition.referencePlanes.foldl geomPlaneCheck r
  let r := sir.geometryDefinition.constraints.enum.foldl geomConstraintCheck r
  let lod := sir.familyMetadata.lodLevel
  let r := if lod ≤ 200 then
      (if 3 < sir.geometryDefinition.extrusions.length then
        addWarning r ( "LOD 200 family has complex geometry - consider simplification") 5
      else r)
    else if 400 ≤ lod then
      (if sir.geometryDefinition.extrusions.length < 2 then
        addWarning r ( "LOD 400+ family may need more detailed geometry") 5
      else r)
    else r
  r

/-- The valid parameter types of `validateParameters` (line 195). -/
def validTypes : List String :=
  [ "Length", "Number", "Text", "Material", "YesNo", "Integer"]

/-- Formula validation outcome. -/
structure FormulaCheck where
  valid : Bool
  error : String
deriving DecidableEq

/-- The single characters a formula may contain as operators (line 564).
The source list also holds the two-character strings `<=` and `>=`, which a
single formula character can never equal, so they cannot influence the
membership test. -/
def validOperatorChars : List Char :=
  [ '+', '-', '*', '/', '(', ')', '=', '<', '>']

/-- A formula separator character for word splitting:
the class `[\s+\-*/()=<>]`. -/
def isFormulaSep (c : Char) : Bool :=
  isSpaceChar c || c = '+' || c = '-' || c = '*' || c = '/' ||
    c = '(' || c = ')' || c = '=' || c = '<' || c = '>'

/-- Split on runs of separator characters, keeping a leading or trailing
empty segment exactly as `String.prototype.split` with a `+`-quantified
class does. -/
def splitWordsGo (isSep : Char → Bool) (acc : List Char) : List Char → List (List Char)
  | [] => [ acc.reverse]
  | c :: cs =>
    if isSep c then acc.reverse :: splitWordsGo isSep [] (cs.dropWhile isSep)
    else splitWordsGo isSep (c :: acc) cs
termination_by l => l.length
decreasing_by
  · exact Nat.lt_succ_of_le (List.dropWhile_sublist isSep (l := cs)).length_le
  · exact Nat.lt_succ_self cs.length

/-- Split a character list into formula words. -/
def splitWords (isSep : Char → Bool) (s : List Char) : List (List Char) :=
  splitWordsGo isSep [] s

/-- `QAGateway.validateFormula` (lines 549-592): non-empty after trimming,
at least one operator character when longer than one character, and every
non-numeric word must resolve to a known parameter name. -/
def validateFormula (formula : String) (params : List FamilyParam) : FormulaCheck :=
  if trimStr formula = "" then { valid := false, error := "Empty formula" }
  else
    let hasValidOperators := formula.data.any (fun c => validOperatorChars.contains c)
    if ¬ hasValidOperators ∧ 1 < formula.data.length then
      { valid := false, error := "Formula contains no valid operators" }
    else
      let parameterNames := params.map (·.name)
      let ws := splitWords isFormulaSep formula.data
      ws.foldl (fun acc w =>
        if w ≠ [] ∧ ¬ jsIsNumericStr (String.mk w) ∧ ¬ parameterNames.contains (String.mk w)
        then { valid := false, error := "Undefined parameter reference: " ++ String.mk w }
        else acc) { valid := true, error := "" }

/-- Value-against-type check outcome. -/
structure ValueCheck where
  valid : Bool
  error : String
deriving DecidableEq

/-- `QAGateway.validateParameterValue` (lines 615-656).  `isNaN` is false on
numbers and booleans (they coerce to numbers); `Number.isInteger` asks for a
whole number after coercion. -/
def validateParameterValue (value : JVal) (ptype : String) : ValueCheck :=
  if ptype = "Length" ∨ ptype = "Number" then
    match value with
    | .num _ => { valid := true, error := "" }
    | .boolean _ => { valid := true, error := "" }
    | .str s =>
      if jsIsNumericStr s then { valid := true, error := "" }
      else { valid := false, error := "Value must be numeric" }
  else if ptype = "Integer" then
    match value with
    | .num q => if q.den = 1 then { valid := true, error := "" }
                else { valid := false, error := "Value must be an integer" }
    | .boolean _ => { valid := true, error := "" }
    | .str s =>
      match jsToNumber s with
      | some q => if q.den = 1 then { valid := true, error := "" }
                  else { valid := false, error := "Value must be an integer" }
      | none => { valid := false, error := "Value must be an integer" }
  else if ptype = "YesNo" then
    match value with
    | .boolean _ => { valid := true, error := "" }
    | .str s =>
      if s = "true" ∨ s = "false" then { valid := true, error := "" }
      else { valid := false, error := "Value must be true or false" }
    | .num _ => { valid := false, error := "Value must be true or false" }
  else if ptype = "Text" ∨ ptype = "Material" then
    match value with
    | .str _ => { valid := true, error := "" }
    | _ => { valid := false, error := "Value must be a string" }
  else { valid := true, error := "" }

/-- Essential parameters per category (`getEssentialParameters`,
lines 597-610). -/
def getEssentialParameters (category : String) : List String :=
  if category = "Doors" then [ "Width", "Height", "Thickness"]
  else if category = "Windows" then [ "Width", "Height", "Sill Height"]
  else if category = "Furniture" then [ "Width", "Depth", "Height"]
  else if category = "Structural Framing" then [ "Length", "Width", "Height"]
  else if category = "Structural Columns" then [ "Width", "Depth", "Height"]
  else if category = "Mechanical Equipment" then [ "Width", "Depth", "Height"]
  else if category = "Electrical Equipment" then [ "Width", "Depth", "Height"]
  else if category = "Plumbing Fixtures" then [ "Width", "Depth", "Height"]
  else []

/-- Per-parameter checks of `validateParameters` (lines 178-211), carrying
the set of names seen so far for duplicate detection. -/
def paramCheck (params : List FamilyParam) (acc : ValidationResult × List String)
    (p : FamilyParam) : ValidationResult × List String :=
  let r := acc.1
  let seen := acc.2
  let r := if seen.contains p.name then
      addIssue r ( "Duplicate parameter name: " ++ p.name) 15
    else r
  let seen := if seen.contains p.name then seen else seen ++ [ p.name]
  let r := if ¬ isValidParamName p.name then
      addIssue r ( "Invalid parameter name format: " ++ p.name) 10
    else r
  let r := if ¬ validTypes.contains p.ptype then
      addIssue r ( "Invalid parameter type: " ++ p.ptype) 10
    else r
  let r := match p.formula with
    | some f =>
      if f ≠ "" then
        let fv := validateFormula f params
        if ¬ fv.valid then
          addIssue r ( "Invalid formula for " ++ p.name ++ ": " ++ fv.error) 10
        else r
      else r
    | none => r
  (r, seen)

/-- Per-family-type checks of `validateParameters` (lines 225-248). -/
def typeCheck (params : List FamilyParam) (r : ValidationResult)
    (it : ℕ × FamilyType) : ValidationResult :=
  let t := it.2
  let r := if trimStr t.name = "" then
      addIssue r ( "Family type " ++ toString it.1 ++ " has empty name") 10
    else r
  t.parameters.foldl (fun r pv =>
    match params.find? (fun p => p.name == pv.1) with
    | some pdef =>
      let vv := validateParameterValue pv.2 pdef.ptype
      if ¬ vv.valid then
        addIssue r ( "Invalid value for " ++ pv.1 ++ " in type " ++ t.name ++ ": " ++ vv.error) 5
      else r
    | none => r) r

/-- `QAGateway.validateParameters` (lines 158-258). -/
def validateParameters (sir : SIR) : ValidationResult :=
  let r := freshResult
  let r := if sir.parameters.familyParameters.length = 0 then
      addIssue r ( "No family parameters defined") 40
    else r
  let rs := sir.parameters.familyParameters.foldl
    (paramCheck sir.parameters.familyParameters) (r, [])
  let r := rs.1
  let parameterNames := rs.2
  let r := (getEssentialParameters sir.familyMetadata.category).foldl
    (fun r ep =>
      if ¬ parameterNames.contains ep then
        addWarning r ( "Missing essential parameter: " ++ ep) 5
      else r) r
  sir.parameters.familyTypes.enum.foldl (typeCheck sir.parameters.familyParameters) r

/-- Worker of `countOccur`; every step consumes at least one character of a
non-empty pattern's input, so a fuel of the input length suffices. -/
def countOccurGo (pat : List Char) (fuel : Nat) (s : List Char) : ℕ :=
  match fuel, s with
  | 0, _ => 0
  | _ + 1, [] => 0
  | fuel + 1, c :: cs =>
    if pat.isPrefixOf (c :: cs) then 1 + countOccurGo pat fuel ((c :: cs).drop pat.length)
    else countOccurGo pat fuel cs
termination_by structural fuel

/-- Non-overlapping left-to-right occurrence count of a literal pattern,
the behaviour of `code.match(new RegExp(indicator, 'g'))` for the
metacharacter-free indicators of `analyzeCodeComplexity`. -/
def countOccur (pat : List Char) (s : List Char) : ℕ :=
  countOccurGo pat (s.length + 1) s

/-- The complexity indicators of `analyzeCodeComplexity` (lines 669-671). -/
def complexityIndicators : List String :=
  [ "if ", "for ", "while ", "try:", "except:", "def ", "class "]

/-- `analyzeCodeComplexity` (lines 661-679): line count plus two points per
indicator occurrence. -/
structure CodeMetrics where
  linesOfCode : ℕ
  complexityScore : ℕ
deriving DecidableEq

/-- `analyzeCodeComplexity` (lines 661-679). -/
def analyzeCodeComplexity (code : String) : CodeMetrics :=
  { linesOfCode := code.data.count '\n' + 1,
    complexityScore :=
      complexityIndicators.foldl (fun acc ind => acc + countOccur ind.data code.data * 2) 0 }

/-- `QAGateway.validatePerformance` (lines 263-322). -/
def validatePerformance (sir : SIR) (generatedCode : String) : ValidationResult :=
  let r := freshResult
  let codeMetrics := analyzeCodeComplexity generatedCode
  let r := if 50 < codeMetrics.complexityScore then
      addWarning r ( "High code complexity detected - may impact performance") 10
    else r
  let r := if strIncludes generatedCode "while " ||
      strIncludes generatedCode "for i in range(1000)" then
      addIssue r ( "Performance anti-pattern detected: excessive loops") 20
    else r
  let totalProfilePoints : ℕ :=
    sir.geometryDefinition.extrusions.foldl (fun sum ext => sum + ext.profile.length) 0
  let r := if 100 < totalProfilePoints then
      addWarning r ( "High geometry complexity - consider optimization") 15
    else r
  let r := if 20 < sir.parameters.familyParameters.length then
      addWarning r ( "High parameter count - may impact family performance") 10
    else r
  if sir.familyMetadata.lodLevel ≤ 200 then
    (if 2 < sir.geometryDefinition.extrusions.length then
      addWarning r ( "LOD 200 family should have minimal geometry for performance") 10
    else r)
  else r

/-- Result record of the compliance and constraint-dependency
sub-validations (lines 837-855). -/
structure ComplianceCheck where
  pass : Bool
  issues : List String
  scoreDeduction : ℤ
deriving DecidableEq

/-- `validateBEPCompliance` (lines 837-840): an always-passing extension
point. -/
def validateBEPCompliance (_ : SIR) : ComplianceCheck :=
  { pass := true, issues := [], scoreDeduction := 0 }

/-- `validateIndustryStandards` (lines 842-845): an always-passing
extension point. -/
def validateIndustryStandards (_ : SIR) : ComplianceCheck :=
  { pass := true, issues := [], scoreDeduction := 0 }

/-- `validateCategoryCompliance` (lines 847-850): an always-passing
extension point. -/
def validateCategoryCompliance (_ : SIR) : ComplianceCheck :=
  { pass := true, issues := [], scoreDeduction := 0 }

/-- `validateConstraintDependencies` (lines 852-855): an always-passing
extension point. -/
def validateConstraintDependencies (_ : List SIRConstraint) : ComplianceCheck :=
  { pass := true, issues := [], scoreDeduction := 0 }

/-- Folding one sub-validation outcome into a pass record: on a failed
sub-check, `validateCompliance` and `validateFlexing` append its issues,
clear the pass flag and subtract its score deduction. -/
def complianceStep (r : ValidationResult) (c : ComplianceCheck) : ValidationResult :=
  if ¬ c.pass then
    { r with issues := r.issues ++ c.issues, pass := false, score := r.score - c.scoreDeduction }
  else r

/-- `QAGateway.validateCompliance` (lines 327-367). -/
def validateCompliance (sir : SIR) : ValidationResult :=
  complianceStep
    (complianceStep
      (complianceStep freshResult (validateBEPCompliance sir))
      (validateIndustryStandards sir))
    (validateCategoryCompliance sir)

/-- One flexing scenario of `generateFlexingScenarios` (lines 470-487). -/
structure FlexScenario where
  parameter : String
  testValues : List JVal
deriving DecidableEq

/-- `generateTestValues` (lines 492-508): the default value when present,
plus per-type representative scales. -/
def generateTestValues (p : FamilyParam) : List JVal :=
  (match p.defaultValue with
   | some v => [ v]
   | none => []) ++
  (if p.ptype = "Length" then [ .num (1 / 10), .num 1, .num 10, .num 100]
   else if p.ptype = "Number" then [ .num 0, .num 1, .num 10, .num 100, .num 1000]
   else [])

/-- `generateFlexingScenarios` (lines 470-487): one scenario per Length or
Number parameter. -/
def generateFlexingScenarios (sir : SIR) : List FlexScenario :=
  sir.parameters.familyParameters.filterMap (fun p =>
    if p.ptype = "Length" ∨ p.ptype = "Number" then
      some { parameter := p.name, testValues := generateTestValues p }
    else none)

/-- Whether a parameter's formula is present, non-empty, and mentions the
scenario's parameter name (`p.formula && p.formula.includes(name)`). -/
def formulaReferences (p : FamilyParam) (paramName : String) : Bool :=
  match p.formula with
  | some f => if f = "" then false else strIncludes f paramName
  | none => false

/-- Outcome of one flexing scenario. -/
structure FlexCheck where
  pass : Bool
  error : String
deriving DecidableEq

/-- `validateFlexingScenario` (lines 513-544): when some formula references
the scenario parameter, that first formula must validate. -/
def validateFlexingScenario (paramName : String) (params : List FamilyParam) : FlexCheck :=
  if paramName = "" then { pass := true, error := "" }
  else if params.any (fun p => formulaReferences p paramName) then
    match params.find? (fun p => formulaReferences p paramName) with
    | some p =>
      let fv := validateFormula ((p.formula).getD "") params
      if ¬ fv.valid then
        { pass := false, error := "Formula validation failed: " ++ fv.error }
      else { pass := true, error := "" }
    | none => { pass := true, error := "" }
  else { pass := true, error := "" }

/-- The per-scenario loop body of `validateFlexing` (lines 379-387). -/
def flexStep (params : List FamilyParam) (r : ValidationResult)
    (scenario : FlexScenario) : ValidationResult :=
  let sv := validateFlexingScenario scenario.parameter params
  if ¬ sv.pass then addIssue r ( "Flexing scenario failed: " ++ sv.error) 15 else r

/-- `QAGateway.validateFlexing` (lines 372-410). -/
def validateFlexing (sir : SIR) : ValidationResult :=
  let r := freshResult
  let r := (generateFlexingScenarios sir).foldl
    (flexStep sir.parameters.familyParameters) r
  complianceStep r (validateConstraintDependencies sir.geometryDefinition.constraints)

/-- The known category list of `validateMetadata` (lines 443-446). -/
def validCategories : List String :=
  [ "Doors", "Windows", "Furniture", "Structural Framing", "Structural Columns",
    "Mechanical Equipment", "Electrical Equipment", "Plumbing Fixtures"]

/-- `QAGateway.validateMetadata` (lines 415-465).  The required-field
truthiness test makes the empty name and category, and LOD level 0,
missing. -/
def validateMetadata (sir : SIR) : ValidationResult :=
  let r := freshResult
  let r := if sir.familyMetadata.familyName = "" then
      addIssue r ( "Missing required metadata field: familyName") 20
    else r
  let r := if sir.familyMetadata.category = "" then
      addIssue r ( "Missing required metadata field: category") 20
    else r
  let r := if sir.familyMetadata.lodLevel = 0 then
      addIssue r ( "Missing required metadata field: lodLevel") 20
    else r
  let lod := sir.familyMetadata.lodLevel
  let r := if lod < 100 ∨ 500 < lod ∨ lod % 100 ≠ 0 then
      addIssue r ( "Invalid LOD level: " ++ intStr lod ++
        " (must be 100, 200, 300, 400, or 500)") 25
    else r
  let r := if ¬ validCategories.contains sir.familyMetadata.category then
      addWarning r ( "Non-standard category: " ++ sir.familyMetadata.category) 5
    else r
  if trimStr sir.familyMetadata.description = "" then
    addWarning r ( "Missing family description") 5
  else r

/-! ## Heuristic extractor (BIMLLMService.generateDemoSIR)

The source scans the lower-cased prompt with JavaScript regular
expressions.  The patterns used are built from a small vocabulary: literal
sequences, greedy character-class repetitions, one capturing group of
digits (`(\d+)`) or of a decimal number (`(\d+(?:\.\d+)?)`), the bounded
word gap `(?:\w+\s+){0,k}` and alternation.  `mseq` is a backtracking
matcher for token sequences with JavaScript semantics: greedy repetitions
backtrack from the longest candidate, alternations try branches in order,
and the overall search (`findFirstCapture`) tries start positions left to
right, which is exactly the leftmost-match rule of `String.prototype.match`.
-/

/-- Regular-expression tokens of the extraction patterns. -/
inductive RTok where
  | lit (cs : List Char)
  | clsPlus (f : Char → Bool)
  | clsStar (f : Char → Bool)
  | capDigits
  | capNum
  | wordGap (n : Nat)
  | alts (bs : List (List RTok))

mutual

/-- Match a token sequence against `s`, carrying the capture made so far;
`some cap` on success.  `fuel` bounds the recursion depth and is chosen
large enough for every use. -/
def mseq (fuel : Nat) (toks : List RTok) (s : List Char) (cap : Option (List Char)) :
    Option (Option (List Char)) :=
  match fuel, toks with
  | 0, _ => none
  | _ + 1, [] => some cap
  | fuel + 1, t :: ts =>
    match t with
    | .lit cs => if cs.isPrefixOf s then mseq fuel ts (s.drop cs.length) cap else none
    | .clsPlus f => tryLens fuel ts s cap ((s.takeWhile f).length) 1
    | .clsStar f => tryLens fuel ts s cap ((s.takeWhile f).length) 0
    | .capDigits => tryCapLens fuel ts s cap ((s.takeWhile Char.isDigit).length)
    | .capNum => tryNumLens fuel ts s cap ((s.takeWhile Char.isDigit).length)
    | .wordGap 0 => mseq fuel ts s cap
    | .wordGap (n + 1) =>
      (mseq fuel (.clsPlus isWordChar :: .clsPlus isSpaceChar :: .wordGap n :: ts) s cap).orElse
        (fun _ => mseq fuel ts s cap)
    | .alts bs => tryAlts fuel bs ts s cap
termination_by structural fuel

/-- Greedy repetition of a character class: try consuming `k` characters
for `k` from the maximal run length down to `lo`. -/
def tryLens (fuel : Nat) (ts : List RTok) (s : List Char) (cap : Option (List Char)) :
    Nat → Nat → Option (Option (List Char))
  | k, lo =>
    match fuel with
    | 0 => none
    | fuel + 1 =>
      if k < lo then none
      else
        (mseq fuel ts (s.drop k) cap).orElse (fun _ =>
          match k with
          | 0 => none
          | k + 1 => tryLens fuel ts s cap k lo)
termination_by structural fuel

/-- Greedy `(\d+)` capture: like `tryLens` with lower bound 1, recording the
consumed digits as the capture. -/
def tryCapLens (fuel : Nat) (ts : List RTok) (s : List Char) (cap : Option (List Char)) :
    Nat → Option (Option (List Char))
  | k =>
    match fuel with
    | 0 => none
    | fuel + 1 =>
      if k < 1 then none
      else
        (mseq fuel ts (s.drop k) (some (s.take k))).orElse (fun _ =>
          match k with
          | 0 => none
          | k + 1 => tryCapLens fuel ts s cap k)
termination_by structural fuel

/-- Greedy `(\d+(?:\.\d+)?)` capture: for each digit count (longest first)
prefer the variant with a fractional part, then the one without. -/
def tryNumLens (fuel : Nat) (ts : List RTok) (s : List Char) (cap : Option (List Char)) :
    Nat → Option (Option (List Char))
  | k =>
    match fuel with
    | 0 => none
    | fuel + 1 =>
      if k < 1 then none
      else
        (tryFrac fuel ts s cap k).orElse (fun _ =>
          match k with
          | 0 => none
          | k + 1 => tryNumLens fuel ts s cap k)
termination_by structural fuel

/-- At a fixed integer-digit count `k`, try the fractional continuation
(greedy in its digit count), then the integer-only continuation. -/
def tryFrac (fuel : Nat) (ts : List RTok) (s : List Char) (cap : Option (List Char))
    (k : Nat) : Option (Option (List Char)) :=
  match fuel with
  | 0 => none
  | fuel + 1 =>
    match s.drop k with
    | '.' :: r2 =>
      (tryFracLens fuel ts s cap k r2 ((r2.takeWhile Char.isDigit).length)).orElse (fun _ =>
        mseq fuel ts (s.drop k) (some (s.take k)))
    | _ => mseq fuel ts (s.drop k) (some (s.take k))
termination_by structural fuel

/-- Greedy fractional digits after the decimal point. -/
def tryFracLens (fuel : Nat) (ts : List RTok) (s : List Char) (cap : Option (List Char))
    (k : Nat) (r2 : List Char) : Nat → Option (Option (List Char))
  | fk =>
    match fuel with
    | 0 => none
    | fuel + 1 =>
      if fk < 1 then none
      else
        (mseq fuel ts (r2.drop fk) (some (s.take k ++ '.' :: r2.take fk))).orElse (fun _ =>
          match fk with
          | 0 => none
          | fk + 1 => tryFracLens fuel ts s cap k r2 fk)
termination_by structural fuel

/-- Alternation: try the branches in order. -/
def tryAlts (fuel : Nat) (bs : List (List RTok)) (ts : List RTok) (s : List Char)
    (cap : Option (List Char)) : Option (Option (List Char)) :=
  match fuel with
  | 0 => none
  | fuel + 1 =>
    match bs with
    | [] => none
    | b :: rest => (mseq fuel (b ++ ts) s cap).orElse (fun _ => tryAlts fuel rest ts s cap)
termination_by structural fuel

end

/-- Leftmost match: try each start position from the left; at the first
position where some alternative matches, return its capture. -/
def findFirstCapture (fuel : Nat) (alternatives : List (List RTok)) :
    List Char → Option (List Char)
  | [] =>
    match tryAlts fuel alternatives [] [] none with
    | some cap => some (cap.getD [])
    | none => none
  | c :: rest =>
    match tryAlts fuel alternatives [] (c :: rest) none with
    | some cap => some (cap.getD [])
    | none => findFirstCapture fuel alternatives rest

/-- Recursion-depth budget for the pattern matcher, ample for the prompt
lengths the extractor sees. -/
def regexFuel : Nat := 400

/-- `parseInt` on a captured all-digit group. -/
def parseIntQ (ds : List Char) : ℚ :=
  (ds.foldl (fun n c => 10 * n + (c.toNat - 48)) 0 : ℕ)

/-- `parseFloat` on a captured `digits[.digits]` group. -/
def parseFloatQ (ds : List Char) : ℚ :=
  let intPart := ds.takeWhile Char.isDigit
  match ds.dropWhile Char.isDigit with
  | '.' :: frac => parseIntQ intPart + parseIntQ frac / (10 : ℚ) ^ frac.length
  | _ => parseIntQ intPart

/-- The millimetre unit literal. -/
def mmTok : RTok := .lit [ 'm', 'm']

/-- The foot unit alternation `(?:ft|foot|feet|')`. -/
def ftTok : RTok := .alts
  [ [ .lit [ 'f', 't']], [ .lit [ 'f', 'o', 'o', 't']],
    [ .lit [ 'f', 'e', 'e', 't']], [ .lit [ '\'']]]

/-- The inch unit alternation `(?:in|inch|inches|")`. -/
def inchTok : RTok := .alts
  [ [ .lit [ 'i', 'n']], [ .lit [ 'i', 'n', 'c', 'h']],
    [ .lit [ 'i', 'n', 'c', 'h', 'e', 's']], [ .lit [ '"']]]

/-- One or more whitespace characters, `\s+`. -/
def sp1 : RTok := .clsPlus isSpaceChar

/-- Zero or more whitespace characters, `\s*`. -/
def sp0 : RTok := .clsStar isSpaceChar

/-- Alternatives of a dimension pattern in millimetres with two keywords:
`(\d+)\s*mm\s+(?:\w+\s+){0,2}kw1|(\d+)\s*mm\s+(?:\w+\s+){0,2}kw2|
kw1\s+(?:\w+\s+){0,2}(\d+)\s*mm|kw2\s+(?:\w+\s+){0,2}(\d+)\s*mm`. -/
def mmDimAlts (kw1 kw2 : List Char) : List (List RTok) :=
  [ [ .capDigits, sp0, mmTok, sp1, .wordGap 2, .lit kw1],
    [ .capDigits, sp0, mmTok, sp1, .wordGap 2, .lit kw2],
    [ .lit kw1, sp1, .wordGap 2, .capDigits, sp0, mmTok],
    [ .lit kw2, sp1, .wordGap 2, .capDigits, sp0, mmTok]]

/-- The same shape in feet with a decimal capture. -/
def ftDimAlts (kw1 kw2 : List Char) : List (List RTok) :=
  [ [ .capNum, sp0, ftTok, sp1, .wordGap 2, .lit kw1],
    [ .capNum, sp0, ftTok, sp1, .wordGap 2, .lit kw2],
    [ .lit kw1, sp1, .wordGap 2, .capNum, sp0, ftTok],
    [ .lit kw2, sp1, .wordGap 2, .capNum, sp0, ftTok]]

/-- The keyword alternation of the sill-height patterns:
`(?:sill|from\s+floor|above\s+floor|floor\s+to)`. -/
def sillKwTok : RTok := .alts
  [ [ .lit [ 's', 'i', 'l', 'l']],
    [ .lit [ 'f', 'r', 'o', 'm'], sp1, .lit [ 'f', 'l', 'o', 'o', 'r']],
    [ .lit [ 'a', 'b', 'o', 'v', 'e'], sp1, .lit [ 'f', 'l', 'o', 'o', 'r']],
    [ .lit [ 'f', 'l', 'o', 'o', 'r'], sp1, .lit [ 't', 'o']]]

/-- The keyword alternation of the inset patterns:
`(?:inset|depth|frame\s+depth)`. -/
def insetKwTok : RTok := .alts
  [ [ .lit [ 'i', 'n', 's', 'e', 't']],
    [ .lit [ 'd', 'e', 'p', 't', 'h']],
    [ .lit [ 'f', 'r', 'a', 'm', 'e'], sp1, .lit [ 'd', 'e', 'p', 't', 'h']]]

/-- `widthMmMatch` pattern (line 102 of the Gemini integration module). -/
def widthMmAlts : List (List RTok) :=
  mmDimAlts [ 'w', 'i', 'd', 'e'] [ 'w', 'i', 'd', 't', 'h']

/-- `heightMmMatch` pattern (line 103). -/
def heightMmAlts : List (List RTok) :=
  mmDimAlts [ 'h', 'i', 'g', 'h'] [ 'h', 'e', 'i', 'g', 'h', 't']

/-- `widthFtMatch` pattern (line 106). -/
def widthFtAlts : List (List RTok) :=
  ftDimAlts [ 'w', 'i', 'd', 'e'] [ 'w', 'i', 'd', 't', 'h']

/-- `heightFtMatch` pattern (line 107). -/
def heightFtAlts : List (List RTok) :=
  ftDimAlts [ 'h', 'i', 'g', 'h'] [ 'h', 'e', 'i', 'g', 'h', 't']

/-- `sillHeightMmMatch` pattern (line 130). -/
def sillMmAlts : List (List RTok) :=
  [ [ .capDigits, sp0, mmTok, sp1, .wordGap 3, sillKwTok]]

/-- `sillHeightFtMatch` pattern (line 131). -/
def sillFtAlts : List (List RTok) :=
  [ [ .capNum, sp0, ftTok, sp1, .wordGap 3, sillKwTok]]

/-- `insetMmMatch` pattern (line 144). -/
def insetMmAlts : List (List RTok) :=
  [ [ .capDigits, sp0, mmTok, sp1, .wordGap 2, insetKwTok]]

/-- `insetFtMatch` pattern (line 145). -/
def insetFtAlts : List (List RTok) :=
  [ [ .capNum, sp0, ftTok, sp1, .wordGap 2, insetKwTok]]

/-- `insetInchMatch` pattern (line 146). -/
def insetInchAlts : List (List RTok) :=
  [ [ .capNum, sp0, inchTok, sp1, .wordGap 2, insetKwTok]]

/-- The dimension and material values extracted by `generateDemoSIR`. -/
structure DemoDims where
  width : ℚ
  height : ℚ
  sillHeight : ℚ
  inset : ℚ
  glassMaterial : String
  sashMaterial : String
deriving DecidableEq

/-- The millimetres-per-foot conversion constant 304.8. -/
def mmPerFoot : ℚ := 3048 / 10

/-- Dimension and material extraction of `generateDemoSIR`
(lines 95-172): millimetre matches convert by 304.8, else foot (and, for
the inset, inch) matches are parsed directly, else per-field defaults. -/
def extractDims (lowerPrompt : List Char) : DemoDims :=
  let width : ℚ :=
    match findFirstCapture regexFuel widthMmAlts lowerPrompt with
    | some d => parseIntQ d / mmPerFoot
    | none =>
      match findFirstCapture regexFuel widthFtAlts lowerPrompt with
      | some d => parseFloatQ d
      | none => 2
  let height : ℚ :=
    match findFirstCapture regexFuel heightMmAlts lowerPrompt with
    | some d => parseIntQ d / mmPerFoot
    | none =>
      match findFirstCapture regexFuel heightFtAlts lowerPrompt with
      | some d => parseFloatQ d
      | none => 4
  let sillHeight : ℚ :=
    match findFirstCapture regexFuel sillMmAlts lowerPrompt with
    | some d => parseIntQ d / mmPerFoot
    | none =>
      match findFirstCapture regexFuel sillFtAlts lowerPrompt with
      | some d => parseFloatQ d
      | none => 3
  let inset : ℚ :=
    match findFirstCapture regexFuel insetMmAlts lowerPrompt with
    | some d => parseIntQ d / mmPerFoot
    | none =>
      match findFirstCapture regexFuel insetInchAlts lowerPrompt with
      | some d => parseFloatQ d / 12
      | none =>
        match findFirstCapture regexFuel insetFtAlts lowerPrompt with
        | some d => parseFloatQ d
        | none => 1 / 20
  let glassMaterial :=
    if hasSub [ 'g', 'l', 'a', 's', 's'] lowerPrompt then "Glass" else "Default"
  let sashMaterial :=
    if hasSub [ 'w', 'o', 'o', 'd'] lowerPrompt ||
       hasSub [ 't', 'i', 'm', 'b', 'e', 'r'] lowerPrompt then "Wood"
    else if hasSub [ 'm', 'e', 't', 'a', 'l'] lowerPrompt ||
       hasSub [ 's', 't', 'e', 'e', 'l'] lowerPrompt ||
       hasSub [ 'a', 'l', 'u', 'm', 'i', 'n', 'u', 'm'] lowerPrompt then "Metal"
    else "Default"
  { width := width, height := height, sillHeight := sillHeight, inset := inset,
    glassMaterial := glassMaterial, sashMaterial := sashMaterial }

/-- Result record of SIR generation (`success`, the SIR, the session, the
ISO timestamp — passed in explicitly — and the demo-path flag). -/
structure GenResult where
  success : Bool
  sir : SIR
  sessionId : String
  timestamp : String
  isDemo : Bool
deriving DecidableEq

/-- The six family parameters of the demo SIR (lines 201-208): fixed names
and types, extracted default values. -/
def demoFamilyParameters (d : DemoDims) : List FamilyParam :=
  [ { name := "Width", ptype := "Length", group := none, isInstance := true,
      defaultValue := some (.num d.width), formula := none },
    { name := "Height", ptype := "Length", group := none, isInstance := true,
      defaultValue := some (.num d.height), formula := none },
    { name := "SillHeight", ptype := "Length", group := none, isInstance := true,
      defaultValue := some (.num d.sillHeight), formula := none },
    { name := "Inset", ptype := "Length", group := none, isInstance := true,
      defaultValue := some (.num d.inset), formula := none },
    { name := "GlassPaneMaterial", ptype := "Material", group := none, isInstance := true,
      defaultValue := some (.str d.glassMaterial), formula := none },
    { name := "SashMaterial", ptype := "Material", group := none, isInstance := true,
      defaultValue := some (.str d.sashMaterial), formula := none }]

/-- The single family type of the demo SIR (lines 209-219). -/
def demoFamilyTypes (d : DemoDims) : List FamilyType :=
  [ { name := "Type 1",
      parameters :=
        [ ( "Width", .num d.width), ( "Height", .num d.height),
          ( "SillHeight", .num d.sillHeight), ( "Inset", .num d.inset),
          ( "GlassPaneMaterial", .str d.glassMaterial),
          ( "SashMaterial", .str d.sashMaterial)] }]

/-- `BIMLLMService.generateDemoSIR` (lines 94-271): extract dimensions and
materials from the lower-cased prompt, build the fixed demo family, then
customise the metadata and geometry by category keyword (`door`, `window`,
`furniture`).  The family-parameter list is the same six parameters on
every path. -/
def generateDemoSIR (userPrompt sessionId now : String) : GenResult :=
  let lowerPrompt := (lowerStr userPrompt).data
  let d := extractDims lowerPrompt
  let mainBody : Extrusion :=
    { name := "MainBody",
      profile :=
        [ { x := 0, y := 0 }, { x := d.width, y := 0 },
          { x := d.width, y := d.height }, { x := 0, y := d.height }],
      startPoint := { x := 0, y := 0, z := 0 },
      endPoint := { x := d.width, y := d.height, z := 100 },
      material := d.sashMaterial }
  let glassPane : Extrusion :=
    { name := "GlassPane",
      profile :=
        [ { x := 10, y := 10 }, { x := d.width - 10, y := 10 },
          { x := d.width - 10, y := d.height - 10 }, { x := 10, y := d.height - 10 }],
      startPoint := { x := 10, y := 10, z := 5 },
      endPoint := { x := d.width - 10, y := d.height - 10, z := 95 },
      material := d.glassMaterial }
  let materials : List MaterialDef :=
    [ { name := d.glassMaterial, parameterName := none, defaultValue := none,
        color := some "#87CEEB" },
      { name := d.sashMaterial, parameterName := none, defaultValue := none,
        color := some "#8B4513" }]
  let meta : FamilyMetadata :=
    if hasSub [ 'd', 'o', 'o', 'r'] lowerPrompt then
      { familyName := "Generated Door", category := "Doors",
        description := "Parametric door family", lodLevel := 200,
        isHosted := false, hostingType := none }
    else if hasSub [ 'w', 'i', 'n', 'd', 'o', 'w'] lowerPrompt then
      { familyName := "Generated Window", category := "Windows",
        description := "Parametric window family", lodLevel := 200,
        isHosted := false, hostingType := none }
    else if hasSub [ 'f', 'u', 'r', 'n', 'i', 't', 'u', 'r', 'e'] lowerPrompt then
      { familyName := "Generated Furniture", category := "Furniture",
        description := "Parametric furniture family", lodLevel := 200,
        isHosted := false, hostingType := none }
    else
      { familyName := "Generated Family", category := "Generic",
        description := "Parametric family generated from natural language",
        lodLevel := 200, isHosted := false, hostingType := none }
  let extrusions : List Extrusion :=
    if hasSub [ 'd', 'o', 'o', 'r'] lowerPrompt then
      [ { mainBody with endPoint := { mainBody.endPoint with z := 50 } }]
    else if hasSub [ 'w', 'i', 'n', 'd', 'o', 'w'] lowerPrompt then
      [ mainBody, glassPane]
    else [ mainBody]
  { success := true,
    sir :=
      { familyMetadata := meta,
        geometryDefinition :=
          { extrusions := extrusions, referencePlanes := [], constraints := [] },
        parameters :=
          { familyParameters := demoFamilyParameters d,
            familyTypes := demoFamilyTypes d },
        materials := materials,
        visibilitySettings := none },
    sessionId := sessionId, timestamp := now, isDemo := true }

/-! ## SIR generator (BIMLLMService.generateSIR, lines 52-89)

The model call, the JSON parse of its reply and the structural validation
are the three failure points; on any of them the generator answers with the
demo (heuristic) result.  The model reply and the JSON parser are abstract
inputs of the embedding.
-/

/-- First-brace-to-last-brace extraction, the regex `/\x7b[\s\S]*\x7d/` of
`parseSIRResponse` (line 375). -/
def extractJsonBlock (text : List Char) : Option (List Char) :=
  match text.dropWhile (· ≠ '{') with
  | [] => none
  | rest =>
    let revAfter := rest.reverse.dropWhile (· ≠ '}')
    if revAfter = [] then none else some revAfter.reverse

/-- `parseSIRResponse` (lines 372-385): extract the JSON block, then parse
it with the (abstract) JSON parser. -/
def parseSIRResponse (parseJson : String → Option SIR) (text : String) : Option SIR :=
  (extractJsonBlock text.data).bind (fun cs => parseJson (String.mk cs))

/-- `validateSIR` (lines 390-415) as a boolean: the five top-level fields
must be present (on the typed SIR only `visibilitySettings` can be absent),
name and category non-empty, and the LOD level inside [100, 500]. -/
def validateSIRb (sir : SIR) : Bool :=
  sir.visibilitySettings.isSome &&
  ¬ (sir.familyMetadata.familyName = "") &&
  ¬ (sir.familyMetadata.category = "") &&
  ¬ (sir.familyMetadata.lodLevel < 100) &&
  ¬ (500 < sir.familyMetadata.lodLevel)

/-- `BIMLLMService.generateSIR` (lines 52-89).  `modelReply` is the outcome
of the external model call; `parseJson` the abstract JSON parser.  Demo
mode, a failed call, an unparsable reply and a structurally invalid SIR all
land on `generateDemoSIR`; only a parsed and validated reply is returned as
a model-sourced result. -/
def generateSIR (demoMode : Bool) (modelReply : Except String String)
    (parseJson : String → Option SIR) (userPrompt sessionId now : String) : GenResult :=
  if demoMode then generateDemoSIR userPrompt sessionId now
  else
    match modelReply with
    | .error _ => generateDemoSIR userPrompt sessionId now
    | .ok text =>
      match parseSIRResponse parseJson text with
      | none => generateDemoSIR userPrompt sessionId now
      | some sir =>
        if validateSIRb sir then
          { success := true, sir := sir, sessionId := sessionId,
            timestamp := now, isDemo := false }
        else generateDemoSIR userPrompt sessionId now

/-! ## SIR-to-backend parameter conversion (routes/auth.js, lines 2140-2228)

`convertSIRToAPSParams` maps a SIR to the flattened window-parameter object
submitted to the execution backend.  The source wraps the mapping in
`try/catch`; on the typed SIR the only reachable throw is the window-type
analysis indexing `profile[1]`/`profile[2]` of the first extrusion, so the
embedding splits on `convertAnalysisOk` and returns the catch-branch default
parameters when it fails.
-/

/-- JavaScript truthiness of a parameter value: 0, the empty string and
`false` are falsy. -/
def jvalTruthy : JVal → Bool
  | .num q => if q = 0 then false else true
  | .str s => if s = "" then false else true
  | .boolean b => b

/-- One entry of the `Types` array sent to the backend. -/
structure APSWindowType where
  typeName : String
  windowWidth : JVal
  windowHeight : JVal
  windowInset : ℚ
  windowSillHeight : ℚ
deriving DecidableEq

/-- The `WindowParams` object sent to the backend. -/
structure APSWindowParams where
  windowStyle : String
  glassPaneMaterial : String
  sashMaterial : String
  windowFamilyName : String
  types : List APSWindowType
deriving DecidableEq

/-- The full parameter payload sent to the backend. -/
structure APSParams where
  fileName : String
  familyType : ℤ
  windowParams : APSWindowParams
deriving DecidableEq

/-- Whether the window-type analysis of lines 2150-2163 runs without
throwing: when the (non-empty) category contains `window` and there is at
least one extrusion, the analysis reads `profile[0]`, `profile[1]` and
`profile[2]` of the first extrusion, so its profile needs at least three
points; otherwise nothing is indexed. -/
def convertAnalysisOk (sir : SIR) : Bool :=
  let category := if sir.familyMetadata.category = "" then "Generic"
    else sir.familyMetadata.category
  if strIncludes (lowerStr category) "door" then true
  else if strIncludes (lowerStr category) "window" then
    match sir.geometryDefinition.extrusions with
    | [] => true
    | e :: _ => 3 ≤ e.profile.length
  else true

/-- The catch-branch default payload (lines 2210-2226), with the fixed
2 ft / 4 ft dimensions. -/
def defaultAPSParams : APSParams :=
  { fileName := "Generated Family.rfa", familyType := 1,
    windowParams :=
      { windowStyle := "DoubleHungWindow", glassPaneMaterial := "Default",
        sashMaterial := "Default", windowFamilyName := "Generated Family.rfa",
        types :=
          [ { typeName := "Type 1", windowWidth := .num 2, windowHeight := .num 4,
              windowInset := 1 / 20, windowSillHeight := 3 }] } }

/-- `convertSIRToAPSParams` (lines 2140-2228).  The happy path takes the
first family parameter whose lower-cased name contains `width`
(resp. `height`) and uses its default value when truthy, falling back to
200 (resp. 1100); materials are matched by name substring with `Default`
fallback; the window style is always `DoubleHungWindow` because the
window-type analysis assigns 1 on every branch. -/
def convertSIRToAPSParams (sir : SIR) : APSParams :=
  if ¬ convertAnalysisOk sir then defaultAPSParams
  else
    let familyName := if sir.familyMetadata.familyName = "" then "Generated Family"
      else sir.familyMetadata.familyName
    let category := if sir.familyMetadata.category = "" then "Generic"
      else sir.familyMetadata.category
    let windowType : ℤ :=
      if strIncludes (lowerStr category) "door" then 1
      else if strIncludes (lowerStr category) "window" then 1
      else 1
    let glassPaneMaterial :=
      match sir.materials.find? (fun m => strIncludes (lowerStr m.name) "glass") with
      | some m => if m.name = "" then "Default" else m.name
      | none => "Default"
    let sashMaterial :=
      match sir.materials.find? (fun m =>
          strIncludes (lowerStr m.name) "sash" || strIncludes (lowerStr m.name) "frame") with
      | some m => if m.name = "" then "Default" else m.name
      | none => "Default"
    let widthParam : JVal :=
      match sir.parameters.familyParameters.find? (fun p =>
          strIncludes (lowerStr p.name) "width") with
      | some p =>
        match p.defaultValue with
        | some v => if jvalTruthy v then v else .num 200
        | none => .num 200
      | none => .num 200
    let heightParam : JVal :=
      match sir.parameters.familyParameters.find? (fun p =>
          strIncludes (lowerStr p.name) "height") with
      | some p =>
        match p.defaultValue with
        | some v => if jvalTruthy v then v else .num 1100
        | none => .num 1100
      | none => .num 1100
    let windowStyleName :=
      if windowType = 1 then "DoubleHungWindow"
      else if windowType = 2 then "SlidingDoubleWindow"
      else if windowType = 3 then "FixedWindow"
      else "DoubleHungWindow"
    { fileName := familyName ++ ".rfa", familyType := 1,
      windowParams :=
        { windowStyle := windowStyleName, glassPaneMaterial := glassPaneMaterial,
          sashMaterial := sashMaterial, windowFamilyName := familyName ++ ".rfa",
          types :=
            [ { typeName := "Type 1", windowWidth := widthParam,
                windowHeight := heightParam, windowInset := 1 / 20,
                windowSillHeight := 3 }] } }

/-! ## Submission error handling (routes/auth.js, createFamilyWithAPS,
lines 2291-2328)

When the real submission throws, the catch handler inspects the error: a
configuration-class error (`statusCode === 400` or a message containing
`400`) is re-thrown with an instruction to configure the backend; every
other error falls back to the simulated workflow, registering an
`aps_`-prefixed simulated workitem.
-/

/-- A JavaScript error as observed by the catch handler. -/
structure JsError where
  statusCode : Option ℤ
  message : String
deriving DecidableEq

/-- The configuration-error test of line 2295:
`error.statusCode === 400 || error.message.includes('400')`. -/
def isConfigurationError (e : JsError) : Bool :=
  e.statusCode = some 400 || strIncludes e.message "400"

/-- The message of the re-thrown configuration error (line 2297). -/
def configErrorMessage : String :=
  "AppBundle and Activity not configured. Please go to the main page and click \"Configure\" to set up the AppBundle and Activity first."

/-- Successful submission result (`success`, `workItemId`,
`workItemStatus`) together with the workitem record stored in the queue. -/
structure SubmitSuccess (P : Type) where
  workItemId : String
  workItemStatus : String
  record : WorkitemData P

/-- The catch handler of `createFamilyWithAPS` (lines 2291-2328).
`simulatedId` stands for the generated `aps_${Date.now()}_${random}`
identifier and `now` for the creation timestamp. -/
def handleLocalSubmitError {P : Type} (err : JsError) (params : P) (now : ℚ)
    (simulatedId : String) : Except String (SubmitSuccess P) :=
  if isConfigurationError err then .error configErrorMessage
  else
    .ok { workItemId := simulatedId, workItemStatus := "submitted",
          record :=
            { id := simulatedId, status := "submitted", createdAt := now,
              params := params, apsParams := params, progress := 0,
              message := "Workitem submitted to APS Design Automation",
              estimatedTime := "15 seconds", isRealAPS := true,
              bucketKey := "temp-bucket-" ++ simulatedId,
              outputObjectKey := "temp-object-" ++ simulatedId,
              lastChecked := none } }

/-- The example prompt of the specification's testable properties. -/
def c5Prompt : String :=
  "Create a 900 mm wide, 1200 mm high double-hung window with 900 mm sill height"

/-- A SIR without width or height family parameters, outside the window
categories, for exercising the conversion fallbacks. -/
def noDimsSIR : SIR :=
  { familyMetadata :=
      { familyName := "Plain", category := "Generic", description := "",
        lodLevel := 300, isHosted := false, hostingType := none },
    geometryDefinition := { extrusions := [], referencePlanes := [], constraints := [] },
    parameters := { familyParameters := [], familyTypes := [] },
    materials := [],
    visibilitySettings := none }

/-! ## SIR-to-code interpreter (services/SIRToCodeInterpreter.js)

`translateSIRToCode` renders a SIR into a Python script section by section
and derives execution metadata.  `new Date().toISOString()`, which the
source embeds both into a code comment (line 83) and into the metadata
(line 465), is the explicit `now` parameter.

Number rendering: JavaScript template literals stringify numbers with the
double-to-shortest-decimal algorithm; `numStr` below agrees with it on the
integral values exercised here and renders other rationals as `num/den`.
No theorem in this file depends on the rendering of non-integral values.
-/

/-- Template-literal rendering of a JavaScript number (see the section
comment). -/
def numStr (q : ℚ) : String :=
  if q.den = 1 then intStr q.num else intStr q.num ++ "/" ++ natToStr q.den

/-- Template-literal rendering of a dynamic value. -/
def jvalStr : JVal → String
  | .num q => numStr q
  | .str s => s
  | .boolean b => if b then "true" else "false"

/-- Template-literal rendering of a possibly-absent string
(`undefined` prints as the string `undefined`). -/
def optStr : Option String → String
  | some s => s
  | none => "undefined"

/-- `generateImports` (lines 69-98). -/
def generateImports (sir : SIR) (now : String) : String :=
  let imports : List String :=
    [ "import clr",
      "clr.AddReference(\"RevitAPI\")",
      "clr.AddReference(\"RevitServices\")",
      "clr.AddReference(\"RevitNodes\")",
      "",
      "from Autodesk.Revit.DB import *",
      "from Autodesk.Revit.DB.Structure import *",
      "from Autodesk.Revit.UI import *",
      "from RevitServices.Persistence import DocumentManager",
      "from RevitServices.Transactions import TransactionManager",
      "",
      "# BIM-LLM Generated Code",
      "# Generated at: " ++ now,
      "# Family: " ++ sir.familyMetadata.familyName,
      ""]
  let extra : List String :=
    if sir.familyMetadata.category = "Doors" then
      [ "from Autodesk.Revit.DB.Architecture import *"]
    else if sir.familyMetadata.category = "Windows" then
      [ "from Autodesk.Revit.DB.Architecture import *"]
    else if strIncludes sir.familyMetadata.category "Structural" then
      [ "from Autodesk.Revit.DB.Structure import *"]
    else []
  String.intercalate "\n" (imports ++ extra)

/-- `generateFamilySetup` (lines 103-141). -/
def generateFamilySetup (sir : SIR) : String :=
  String.intercalate "\n"
    [ "# Family Setup",
      "doc = DocumentManager.Instance.CurrentDBDocument",
      "app = DocumentManager.Instance.CurrentUIApplication.Application",
      "",
      "# Transaction for family creation",
      "TransactionManager.Instance.EnsureInTransaction(doc)",
      "",
      "try:",
      "    # Family metadata",
      "    family_name = \"" ++ sir.familyMetadata.familyName ++ "\"",
      "    family_category = \"" ++ sir.familyMetadata.category ++ "\"",
      "    family_description = \"" ++ sir.familyMetadata.description ++ "\"",
      "    lod_level = " ++ intStr sir.familyMetadata.lodLevel,
      "",
      "    # Validate family document",
      "    if not doc.IsFamilyDocument:",
      "        raise Exception(\"This script must run in a family document\")",
      "",
      "    # Get family category",
      "    categories = doc.Settings.Categories",
      "    target_category = None",
      "    for cat in categories:",
      "        if cat.Name == family_category:",
      "            target_category = cat",
      "            break",
      "",
      "    if target_category is None:",
      "        raise Exception(f\"Category \x7bfamily_category\x7d not found\")",
      "",
      "    # Set family category if not already set",
      "    if doc.OwnerFamily.FamilyCategory.Name != family_category:",
      "        doc.OwnerFamily.FamilyCategory = target_category",
      ""]

/-- `generateReferencePlanes` (lines 146-165). -/
def generateReferencePlanes (sir : SIR) : String :=
  let planes : List String :=
    [ "    # Reference Planes",
      "    reference_planes = \x7b\x7d",
      ""]
  let body : List String := sir.geometryDefinition.referencePlanes.flatMap (fun plane =>
    [ "    # Reference Plane: " ++ plane.name,
      "    plane_origin = XYZ(" ++ numStr plane.origin.x ++ ", " ++ numStr plane.origin.y ++
        ", " ++ numStr plane.origin.z ++ ")",
      "    plane_normal = XYZ(" ++ numStr plane.normal.x ++ ", " ++ numStr plane.normal.y ++
        ", " ++ numStr plane.normal.z ++ ")",
      "    ref_plane = Plane.CreateByNormalAndOrigin(plane_normal, plane_origin)",
      "    reference_planes[\"" ++ plane.name ++ "\"] = ref_plane",
      ""])
  String.intercalate "\n" (planes ++ body)

/-- `formatParameterValue` (lines 494-506): numeric types are rendered
bare, everything else is double-quoted. -/
def formatParameterValue (v : JVal) (ptype : String) : String :=
  if ptype = "Length" ∨ ptype = "Number" then jvalStr v
  else "\"" ++ jvalStr v ++ "\""

/-- `generateParameters` (lines 170-198). -/
def generateParameters (sir : SIR) : String :=
  let header : List String :=
    [ "    # Family Parameters",
      "    created_parameters = \x7b\x7d",
      ""]
  let body : List String := sir.parameters.familyParameters.flatMap (fun param =>
    [ "    # Parameter: " ++ param.name,
      "    param_def = FamilyParameterDefinition.Create(\"" ++ param.name ++
        "\", ParameterType." ++ param.ptype ++ ")",
      "    param_def.SetGroupTypeId(GroupTypeId." ++
        (match param.group with
         | some g => if g = "" then "Data" else g
         | none => "Data") ++ ")",
      "    param_def.IsInstance = " ++ (if param.isInstance then "True" else "False")] ++
    (match param.defaultValue with
     | some v => [ "    param_def.DefaultValue = " ++ formatParameterValue v param.ptype]
     | none => []) ++
    (match param.formula with
     | some f => if f = "" then [] else [ "    param_def.Formula = \"" ++ f ++ "\""]
     | none => []) ++
    [ "    created_parameters[\"" ++ param.name ++ "\"] = param_def",
      ""])
  String.intercalate "\n" (header ++ body)

/-- One profile edge of `generateGeometry` (lines 224-231). -/
def geometryEdgeLines (profile : List Pt2) (ip : ℕ × Pt2) : List String :=
  let pt := ip.2
  let nextPoint := profile.getD ((ip.1 + 1) % profile.length) { x := 0, y := 0 }
  [ "    # Line from (" ++ numStr pt.x ++ ", " ++ numStr pt.y ++ ") to (" ++
      numStr nextPoint.x ++ ", " ++ numStr nextPoint.y ++ ")",
    "    start_pt = XYZ(" ++ numStr pt.x ++ ", " ++ numStr pt.y ++ ", 0)",
    "    end_pt = XYZ(" ++ numStr nextPoint.x ++ ", " ++ numStr nextPoint.y ++ ", 0)",
    "    line = Line.CreateBound(start_pt, end_pt)",
    "    profile_curves.Append(line)"]

/-- `generateGeometry` (lines 203-244). -/
def generateGeometry (sir : SIR) : String :=
  let header : List String :=
    [ "    # Geometry Creation",
      "    created_geometry = \x7b\x7d",
      ""]
  let body : List String := sir.geometryDefinition.extrusions.flatMap (fun extrusion =>
    [ "    # Extrusion: " ++ extrusion.name,
      "    # Start Point: (" ++ numStr extrusion.startPoint.x ++ ", " ++
        numStr extrusion.startPoint.y ++ ", " ++ numStr extrusion.startPoint.z ++ ")",
      "    # End Point: (" ++ numStr extrusion.endPoint.x ++ ", " ++
        numStr extrusion.endPoint.y ++ ", " ++ numStr extrusion.endPoint.z ++ ")",
      "",
      "    # Create sketch plane",
      "    sketch_plane = Plane.CreateByNormalAndOrigin(XYZ(0, 0, 1), XYZ(0, 0, 0))",
      "    sketch = SketchPlane.Create(doc, sketch_plane)",
      "",
      "    # Create profile curves",
      "    profile_curves = CurveArray()"] ++
    extrusion.profile.enum.flatMap (geometryEdgeLines extrusion.profile) ++
    [ "",
      "    # Create extrusion",
      "    extrusion_height = " ++ numStr (extrusion.endPoint.z - extrusion.startPoint.z),
      "    extrusion_obj = doc.FamilyCreate.NewExtrusion(True, profile_curves, sketch, extrusion_height)",
      "    created_geometry[\"" ++ extrusion.name ++ "\"] = extrusion_obj",
      ""])
  String.intercalate "\n" (header ++ body)

/-- `generateConstraints` (lines 249-282). -/
def generateConstraints (sir : SIR) : String :=
  let header : List String :=
    [ "    # Constraints and Relationships",
      ""]
  let body : List String := sir.geometryDefinition.constraints.flatMap (fun constraint =>
    [ "    # Constraint: " ++ optStr constraint.element1 ++ " -> " ++
        optStr constraint.element2,
      "    # Type: " ++ constraint.constraintKind,
      "    # Offset: " ++ numStr constraint.offset,
      ""] ++
    (if constraint.constraintKind = "align" then
      [ "    # Align constraint implementation",
        "    # TODO: Implement alignment constraint"]
     else if constraint.constraintKind = "lock" then
      [ "    # Lock constraint implementation",
        "    # TODO: Implement lock constraint"]
     else if constraint.constraintKind = "dimension" then
      [ "    # Dimension constraint implementation",
        "    # TODO: Implement dimension constraint"]
     else []) ++
    [ ""])
  String.intercalate "\n" (header ++ body)

/-- `generateMaterials` (lines 287-312). -/
def generateMaterials (sir : SIR) : String :=
  let header : List String :=
    [ "    # Materials",
      "    created_materials = \x7b\x7d",
      ""]
  let body : List String := sir.materials.flatMap (fun material =>
    [ "    # Material: " ++ material.name,
      "    # Parameter: " ++ optStr material.parameterName,
      "    # Default: " ++ optStr material.defaultValue,
      "",
      "    if \"" ++ optStr material.parameterName ++ "\" not in created_parameters:",
      "        mat_param = FamilyParameterDefinition.Create(\"" ++
        optStr material.parameterName ++ "\", ParameterType.Material)",
      "        mat_param.SetGroupTypeId(GroupTypeId.Materials)",
      "        mat_param.IsInstance = True",
      "        created_parameters[\"" ++ optStr material.parameterName ++ "\"] = mat_param",
      ""])
  String.intercalate "\n" (header ++ body)

/-- `generateFamilyTypes` (lines 317-345). -/
def generateFamilyTypes (sir : SIR) : String :=
  let header : List String :=
    [ "    # Family Types",
      "    created_types = \x7b\x7d",
      ""]
  let body : List String := sir.parameters.familyTypes.flatMap (fun ftype =>
    [ "    # Family Type: " ++ ftype.name,
      "    family_type = doc.FamilyCreate.NewType(\"" ++ ftype.name ++ "\")",
      ""] ++
    ftype.parameters.flatMap (fun pv =>
      [ "    # Set parameter " ++ pv.1 ++ " = " ++ jvalStr pv.2,
        "    # TODO: Implement parameter value setting"]) ++
    [ "    created_types[\"" ++ ftype.name ++ "\"] = family_type",
      ""])
  String.intercalate "\n" (header ++ body)

/-- ASCII upper-casing of one character (`toUpperCase`). -/
def asciiUpper (c : Char) : Char :=
  if 'a' ≤ c ∧ c ≤ 'z' then Char.ofNat (c.toNat - 32) else c

/-- Upper-case an entire string. -/
def upperStr (s : String) : String :=
  String.mk (s.data.map asciiUpper)

/-- Lines of one detail level in `generateVisibilitySettings`
(lines 357-365). -/
def visibilityLevelLines (detailLevel : String) (elems : List String) : List String :=
  [ "    # " ++ upperStr detailLevel ++ " visibility"] ++
  elems.flatMap (fun elementName =>
    [ "    # Set " ++ elementName ++ " visibility for " ++ detailLevel,
      "    # TODO: Implement visibility setting for " ++ elementName]) ++
  [ ""]

/-- `generateVisibilitySettings` (lines 350-370).  With a present settings
object all three level arrays exist (an empty array is truthy), so each
level contributes its block. -/
def generateVisibilitySettings (sir : SIR) : String :=
  let header : List String :=
    [ "    # Visibility Settings",
      ""]
  let body : List String :=
    match sir.visibilitySettings with
    | none => []
    | some vs =>
      visibilityLevelLines "coarse" vs.coarse ++
      visibilityLevelLines "medium" vs.medium ++
      visibilityLevelLines "fine" vs.fine
  String.intercalate "\n" (header ++ body)

/-- `generateValidationCode` (lines 375-406). -/
def generateValidationCode : String :=
  String.intercalate "\n"
    [ "    # Validation and Quality Assurance",
      "    validation_results = \x7b",
      "        \"geometry_created\": len(created_geometry) > 0,",
      "        \"parameters_created\": len(created_parameters) > 0,",
      "        \"family_types_created\": len(created_types) > 0,",
      "        \"lod_compliance\": True,  # TODO: Implement LOD validation",
      "        \"performance_optimized\": True  # TODO: Implement performance checks",
      "    \x7d",
      "",
      "    # Log validation results",
      "    print(\"Family Creation Validation Results:\")",
      "    for key, value in validation_results.items():",
      "        print(f\"  \x7bkey\x7d: \x7bvalue\x7d\")",
      "",
      "    # Commit transaction",
      "    TransactionManager.Instance.TransactionTaskDone()",
      "",
      "    print(f\"Successfully created family: \x7bfamily_name\x7d\")",
      "    print(f\"Category: \x7bfamily_category\x7d\")",
      "    print(f\"LOD Level: \x7blod_level\x7d\")",
      "",
      "except Exception as e:",
      "    print(f\"Error creating family: \x7bstr(e)\x7d\")",
      "    TransactionManager.Instance.TransactionTaskDone()",
      "    raise e",
      ""]

/-- `combineCodeSections` (lines 411-426): the ten sections joined by blank
lines. -/
def combineCodeSections (sir : SIR) (now : String) : String :=
  String.intercalate "\n\n"
    [ generateImports sir now,
      generateFamilySetup sir,
      generateReferencePlanes sir,
      generateParameters sir,
      generateGeometry sir,
      generateConstraints sir,
      generateMaterials sir,
      generateFamilyTypes sir,
      generateVisibilitySettings sir,
      generateValidationCode]

/-- Whether a newline occurs in the remainder (a `PAT.*\n` match needs a
closing newline). -/
def hasNL (s : List Char) : Bool :=
  s.any (· = '\n')

/-- Worker of `stripPat`: a one-pass scanner.  In skipping state it deletes
up to and including the next newline; otherwise, at an occurrence of the
(newline-free) pattern followed eventually by a newline it enters skipping
state, else it keeps the character.  This is exactly the action of a global
`PAT.*\n → ""` replacement scanning left to right over non-overlapping
matches. -/
def stripPatGo (pat : List Char) : Bool → List Char → List Char
  | _, [] => []
  | true, c :: cs =>
    if c = '\n' then stripPatGo pat false cs else stripPatGo pat true cs
  | false, c :: cs =>
    if pat.isPrefixOf (c :: cs) && hasNL (c :: cs) then stripPatGo pat true cs
    else c :: stripPatGo pat false cs

/-- Global replacement of the regex `PAT.*\n` by the empty string. -/
def stripPat (pat : List Char) (s : List Char) : List Char :=
  stripPatGo pat false s

/-- `applyPerformanceOptimizations` (lines 431-451) together with the two
rules of `initializePerformanceRules` (lines 522-541): comment stripping
and extrusion elision for LOD ≤ 200, void elision for LOD ≤ 200, and
unconditional `Array.Create` elision. -/
def applyPerformanceOptimizations (code : String) (sir : SIR) : String :=
  let c := code.data
  let c := if sir.familyMetadata.lodLevel ≤ 200 then stripPat ( "# ").data c else c
  let c := if sir.familyMetadata.lodLevel ≤ 200 then
      stripPat ( "extrusion_obj = doc.FamilyCreate.NewExtrusion").data c
    else c
  let c := if sir.familyMetadata.lodLevel ≤ 200 then stripPat ( "NewVoid").data c else c
  let c := stripPat ( "Array.Create").data c
  String.mk c

/-- `estimateExecutionTime` (lines 546-563). -/
def estimateExecutionTime (sir : SIR) : ℤ :=
  min (30 + 5 * (sir.geometryDefinition.extrusions.length : ℤ) +
    2 * (sir.parameters.familyParameters.length : ℤ) +
    3 * (sir.parameters.familyTypes.length : ℤ)) 300

/-- `calculateComplexityScore` (lines 568-587). -/
def calculateComplexityScore (sir : SIR) : ℤ :=
  2 * (sir.geometryDefinition.extrusions.length : ℤ) +
    (sir.parameters.familyParameters.length : ℤ) +
    2 * (sir.parameters.familyTypes.length : ℤ)

/-- `getAppliedOptimizations` (lines 592-604). -/
def getAppliedOptimizations (sir : SIR) : List String :=
  (if sir.familyMetadata.lodLevel ≤ 200 then [ "simplified_geometry"] else []) ++
    (if 5 < sir.geometryDefinition.extrusions.length then [ "geometry_consolidation"]
     else [])

/-- The metadata record of `generateExecutionMetadata` (lines 456-467). -/
structure ExecMetadata where
  familyName : String
  category : String
  lodLevel : ℤ
  codeLength : ℕ
  estimatedExecutionTime : ℤ
  complexityScore : ℤ
  performanceOptimizations : List String
  generatedAt : String
deriving DecidableEq

/-- `generateExecutionMetadata` (lines 456-467). -/
def generateExecutionMetadata (sir : SIR) (code : String) (now : String) : ExecMetadata :=
  { familyName := sir.familyMetadata.familyName,
    category := sir.familyMetadata.category,
    lodLevel := sir.familyMetadata.lodLevel,
    codeLength := code.length,
    estimatedExecutionTime := estimateExecutionTime sir,
    complexityScore := calculateComplexityScore sir,
    performanceOptimizations := getAppliedOptimizations sir,
    generatedAt := now }

/-- The interpreter's `validateSIR` (lines 472-489) as a boolean.  On the
typed SIR the three presence checks cannot fail; the LOD range check
remains. -/
def interpValidSIR (sir : SIR) : Bool :=
  ¬ (sir.familyMetadata.lodLevel < 100) && ¬ (500 < sir.familyMetadata.lodLevel)

/-- The success path of `translateSIRToCode`: the combined sections after
the optimisation rewrites, plus the metadata. -/
def emitOk (sir : SIR) (now : String) : String × ExecMetadata :=
  let optimizedCode := applyPerformanceOptimizations (combineCodeSections sir now) sir
  (optimizedCode, generateExecutionMetadata sir optimizedCode now)

/-- `translateSIRToCode` (lines 21-64): validation failures surface as an
error result instead of code. -/
def translateSIRToCode (sir : SIR) (now : String) : Except String (String × ExecMetadata) :=
  if interpValidSIR sir then .ok (emitOk sir now) else .error "Invalid LOD level"

/-- A concrete valid SIR (LOD 300, no extrusions, one parameter, one
family type, one material) for exercising the code emitter. -/
def c7SIR : SIR :=
  { familyMetadata :=
      { familyName := "Emit Probe", category := "Windows", description := "probe",
        lodLevel := 300, isHosted := false, hostingType := none },
    geometryDefinition := { extrusions := [], referencePlanes := [], constraints := [] },
    parameters :=
      { familyParameters :=
          [ { name := "Width", ptype := "Length", group := none, isInstance := true,
              defaultValue := some (.num 5), formula := none }],
        familyTypes := [ { name := "Type 1", parameters := [ ( "Width", .num 5)] }] },
    materials :=
      [ { name := "Glass", parameterName := some "GlassMat", defaultValue := some "Glass",
          color := none }],
    visibilitySettings := some { coarse := [ "MainBody"], medium := [], fine := [] } }

/-- A SIR with one width-named and one height-named family parameter, for
exercising the conversion's first-match rule. -/
def c6WitnessSIR : SIR :=
  { familyMetadata :=
      { familyName := "Framed", category := "Generic", description := "",
        lodLevel := 300, isHosted := false, hostingType := none },
    geometryDefinition := { extrusions := [], referencePlanes := [], constraints := [] },
    parameters :=
      { familyParameters :=
          [ { name := "Width", ptype := "Length", group := none, isInstance := true,
              defaultValue := some (.num 7), formula := none },
            { name := "Height", ptype := "Length", group := none, isInstance := true,
              defaultValue := some (.num 9), formula := none }],
        familyTypes := [] },
    materials := [],
    visibilitySettings := none }

/-- A concrete SIR whose geometry accumulates 105 points of deductions:
three extrusions, each with a one-point profile (20 points) and zero height
(15 points). -/
def negativeScoreSIR : SIR :=
  let badExt : String → Extrusion := fun nm =>
    { name := nm, profile := [ { x := 0, y := 0 }],
      startPoint := { x := 0, y := 0, z := 0 }, endPoint := { x := 0, y := 0, z := 0 },
      material := "Default" }
  { familyMetadata :=
      { familyName := "Bad", category := "Windows", description := "",
        lodLevel := 300, isHosted := false, hostingType := none },
    geometryDefinition :=
      { extrusions := [ badExt "A", badExt "B", badExt "C"],
        referencePlanes := [], constraints := [] },
    parameters := { familyParameters := [], familyTypes := [] },
    materials := [],
    visibilitySettings := none }

/-! ## Theorems -/

/-- A left fold whose step never increases a projected integer quantity
never increases it overall. -/
lemma foldl_proj_mono {σ α : Type} (proj : σ → ℤ) (step : σ → α → σ)
    (h : ∀ s x, proj (step s x) ≤ proj s) :
    ∀ (l : List α) (s : σ), proj (l.foldl step s) ≤ proj s
  | [], _ => le_refl _
  | x :: xs, s => le_trans (foldl_proj_mono proj step h xs (step s x)) (h s x)

@[simp] lemma addIssue_score (r : ValidationResult) (m : String) (d : ℤ) :
    (addIssue r m d).score = r.score - d := rfl

@[simp] lemma addWarning_score (r : ValidationResult) (m : String) (d : ℤ) :
    (addWarning r m d).score = r.score - d := rfl

/-- Each per-extrusion geometry check only deducts points. -/
lemma geomExtrusionCheck_score_le (r : ValidationResult) (e : Extrusion) :
    (geomExtrusionCheck r e).score ≤ r.score := by
  simp only [geomExtrusionCheck]
  split_ifs <;> simp <;> omega

/-- Each reference-plane check only deducts points. -/
lemma geomPlaneCheck_score_le (r : ValidationResult) (p : RefPlane) :
    (geomPlaneCheck r p).score ≤ r.score := by
  simp only [geomPlaneCheck]
  split_ifs <;> simp

/-- Each constraint check only deducts points. -/
lemma geomConstraintCheck_score_le (r : ValidationResult) (ic : ℕ × SIRConstraint) :
    (geomConstraintCheck r ic).score ≤ r.score := by
  simp only [geomConstraintCheck]
  split_ifs <;> simp

/-- The three geometry folds together only deduct points. -/
lemma geomFolds_score_le (g : GeometryDefinition) (r : ValidationResult) :
    ((g.constraints.enum.foldl geomConstraintCheck
      (g.referencePlanes.foldl geomPlaneCheck
        (g.extrusions.foldl geomExtrusionCheck r))).score) ≤ r.score :=
  le_trans
    (foldl_proj_mono (·.score) geomConstraintCheck geomConstraintCheck_score_le _ _)
    (le_trans
      (foldl_proj_mono (·.score) geomPlaneCheck geomPlaneCheck_score_le _ _)
      (foldl_proj_mono (·.score) geomExtrusionCheck geomExtrusionCheck_score_le _ _))

/-- Each per-parameter check only deducts points. -/
lemma paramCheck_score_le (ps : List FamilyParam) (acc : ValidationResult × List String)
    (p : FamilyParam) : (paramCheck ps acc p).1.score ≤ acc.1.score := by
  rcases hf : p.formula with _ | f <;>
    simp only [paramCheck, hf] <;> split_ifs <;> simp <;> omega

/-- Each per-family-type check only deducts points. -/
lemma typeCheck_score_le (ps : List FamilyParam) (r : ValidationResult)
    (it : ℕ × FamilyType) : (typeCheck ps r it).score ≤ r.score := by
  simp only [typeCheck]
  have h := foldl_proj_mono (σ := ValidationResult) (·.score)
    (fun r pv =>
      match ps.find? (fun p => p.name == pv.1) with
      | some pdef =>
        let vv := validateParameterValue pv.2 pdef.ptype
        if ¬ vv.valid then
          addIssue r ( "Invalid value for " ++ pv.1 ++ " in type " ++ it.2.name ++ ": " ++ vv.error) 5
        else r
      | none => r)
    (by
      intro s pv
      rcases hf : ps.find? (fun p => p.name == pv.1) with _ | pdef
      · simp [hf]
      · simp only [hf]
        split_ifs <;> simp)
    it.2.parameters
  split_ifs with hname
  · exact le_trans (h _) (by simp)
  · exact h _

/-- Each flexing-scenario check only deducts points. -/
lemma flexStep_score_le (ps : List FamilyParam) (r : ValidationResult)
    (scenario : FlexScenario) : (flexStep ps r scenario).score ≤ r.score := by
  simp only [flexStep]
  split_ifs <;> simp

/-- In the first simulated phase the cap of 25 is never reached: the raw
ramp stays below it, so `min` returns the ramp. -/
lemma simProgress_phase1 {e : ℚ} (h : e < 3) : simProgress e = e * 100 / 15 := by
  have hle : e / totalSimulatedTime * 100 ≤ 25 := by
    rw [totalSimulatedTime]; nlinarith
  rw [simProgress, if_pos h, min_eq_right hle, totalSimulatedTime]; ring

/-- In the second simulated phase the cap of 75 is never reached. -/
lemma simProgress_phase2 {e : ℚ} (h3 : 3 ≤ e) (h8 : e < 8) :
    simProgress e = 25 + (e - 3) * 50 / 12 := by
  have hle : 25 + (e - 3) / (totalSimulatedTime - 3) * 50 ≤ 75 := by
    rw [totalSimulatedTime]; nlinarith
  rw [simProgress, if_neg (not_lt.mpr h3), if_pos h8, min_eq_right hle,
    totalSimulatedTime]; ring

/-- In the third simulated phase the cap of 95 is never reached. -/
lemma simProgress_phase3 {e : ℚ} (h8 : 8 ≤ e) (h15 : e < 15) :
    simProgress e = 75 + (e - 8) * 20 / 7 := by
  have h3 : ¬ e < 3 := not_lt.mpr (by linarith)
  have h8' : ¬ e < 8 := not_lt.mpr h8
  have h15' : e < totalSimulatedTime := by rw [totalSimulatedTime]; exact h15
  have hle : 75 + (e - 8) / (totalSimulatedTime - 8) * 20 ≤ 95 := by
    rw [totalSimulatedTime]; nlinarith
  rw [simProgress, if_neg h3, if_neg h8', if_pos h15', min_eq_right hle,
    totalSimulatedTime]; ring

/-- After the fifteenth simulated second the progress is pinned at 100. -/
lemma simProgress_phase4 {e : ℚ} (h : 15 ≤ e) : simProgress e = 100 := by
  have h3 : ¬ e < 3 := not_lt.mpr (by linarith)
  have h8 : ¬ e < 8 := not_lt.mpr (by linarith)
  have h15 : ¬ e < totalSimulatedTime := by rw [totalSimulatedTime]; exact not_lt.mpr h
  rw [simProgress, if_neg h3, if_neg h8, if_neg h15]

/-- Status of a simulated job: phase-wise description. -/
lemma simStatus_phase1 {e : ℚ} (h : e < 3) : simStatus e = "submitted" := by
  rw [simStatus, if_pos h]

lemma simStatus_phase2 {e : ℚ} (h3 : 3 ≤ e) (h8 : e < 8) : simStatus e = "inprogress" := by
  rw [simStatus, if_neg (not_lt.mpr h3), if_pos h8]

lemma simStatus_phase3 {e : ℚ} (h8 : 8 ≤ e) (h15 : e < 15) : simStatus e = "inprogress" := by
  have h3 : ¬ e < 3 := not_lt.mpr (by linarith)
  have h15' : e < totalSimulatedTime := by rw [totalSimulatedTime]; exact h15
  rw [simStatus, if_neg h3, if_neg (not_lt.mpr h8), if_pos h15']

lemma simStatus_phase4 {e : ℚ} (h : 15 ≤ e) : simStatus e = "success" := by
  have h3 : ¬ e < 3 := not_lt.mpr (by linarith)
  have h8 : ¬ e < 8 := not_lt.mpr (by linarith)
  have h15 : ¬ e < totalSimulatedTime := by rw [totalSimulatedTime]; exact not_lt.mpr h
  rw [simStatus, if_neg h3, if_neg h8, if_neg h15]

/-- C2 (counterexample): at elapsed time 0 the tracker reports status
`submitted` with progress 0, whereas the claimed law (progress ramping from
5 to 20 over the first 30 seconds) would give 5; so the code does not
compute the claimed function. -/
theorem claim_C2_counterexample :
    simStatus 0 = "submitted" ∧ simProgress 0 = 0 ∧
    specClaimedProgress "submitted" 0 = 5 ∧
    simProgress 0 ≠ specClaimedProgress (simStatus 0) 0 := by
  have h0 : simStatus 0 = "submitted" := simStatus_phase1 (by norm_num)
  have h1 : simProgress 0 = 0 := by rw [simProgress_phase1 (by norm_num)]; norm_num
  have h2 : specClaimedProgress "submitted" 0 = 5 := by
    rw [specClaimedProgress, if_pos rfl]; norm_num
  exact ⟨h0, h1, h2, by rw [h0, h1, h2]; norm_num⟩

/-- C2 (amended): the simulated tracker derives status and progress from
elapsed time with a 15-second schedule: below 3 s the status is `submitted`
and progress ramps linearly from 0 at 100/15 per second (the cap of 25 is
never reached); from 3 s to 8 s the status is `inprogress` with progress
25 + (e-3)·50/12 (cap 75 never reached); from 8 s to 15 s the status is
`inprogress` with progress 75 + (e-8)·20/7 (cap 95 never reached); from
15 s on the status is `success` and progress is 100.  The status-only helper
`getProgressFromStatus` returns fixed percentages with no elapsed-time
dependence. -/
theorem claim_C2_amended (e : ℚ) :
    (e < 3 → simStatus e = "submitted" ∧ simProgress e = e * 100 / 15) ∧
    (3 ≤ e → e < 8 → simStatus e = "inprogress" ∧ simProgress e = 25 + (e - 3) * 50 / 12) ∧
    (8 ≤ e → e < 15 → simStatus e = "inprogress" ∧ simProgress e = 75 + (e - 8) * 20 / 7) ∧
    (15 ≤ e → simStatus e = "success" ∧ simProgress e = 100) ∧
    getProgressFromStatus "pending" = 10 ∧
    getProgressFromStatus "inprogress" = 50 ∧
    getProgressFromStatus "success" = 100 ∧
    getProgressFromStatus "submitted" = 25 := by
  refine ⟨fun h => ⟨simStatus_phase1 h, simProgress_phase1 h⟩,
    fun h3 h8 => ⟨simStatus_phase2 h3 h8, simProgress_phase2 h3 h8⟩,
    fun h8 h15 => ⟨simStatus_phase3 h8 h15, simProgress_phase3 h8 h15⟩,
    fun h => ⟨simStatus_phase4 h, simProgress_phase4 h⟩, ?_, ?_, ?_, ?_⟩ <;> decide

/-- C2 (witness): the amended theorem instantiated at concrete elapsed
times in each phase. -/
theorem claim_C2_witness :
    (simStatus 1 = "submitted" ∧ simProgress 1 = 1 * 100 / 15) ∧
    (simStatus 5 = "inprogress" ∧ simProgress 5 = 25 + (5 - 3) * 50 / 12) ∧
    (simStatus 10 = "inprogress" ∧ simProgress 10 = 75 + (10 - 8) * 20 / 7) ∧
    (simStatus 20 = "success" ∧ simProgress 20 = 100) :=
  ⟨(claim_C2_amended 1).1 (by norm_num),
   (claim_C2_amended 5).2.1 (by norm_num) (by norm_num),
   (claim_C2_amended 10).2.2.1 (by norm_num) (by norm_num),
   (claim_C2_amended 20).2.2.2.1 (by norm_num)⟩

/-- C3 (counterexample): the validation score is not floored at 0.  On a
SIR with three extrusions that each have a one-point profile and zero
height, `validateGeometry` deducts 3 × (20 + 15) = 105 points and reports
score −5, outside the claimed interval [0,100]. -/
theorem claim_C3_counterexample :
    (validateGeometry negativeScoreSIR).score = -5 ∧
    ¬ (0 ≤ (validateGeometry negativeScoreSIR).score) := by
  have h : (validateGeometry negativeScoreSIR).score = -5 := by
    norm_num [validateGeometry, negativeScoreSIR, freshResult, geomExtrusionCheck,
      geomPlaneCheck, geomConstraintCheck, addIssue, addWarning]
  exact ⟨h, by rw [h]; decide⟩

/-- C3 (amended): each of the six per-pass validation scores starts at 100
and is decremented by a fixed deduction for every issue or warning found,
so it never exceeds 100 — but the source applies no floor at 0, and in
passes whose deductions can total more than 100 points (such as geometry)
the score becomes negative. -/
theorem claim_C3_amended (sir : SIR) (generatedCode : String) :
    (validateGeometry sir).score ≤ 100 ∧
    (validateParameters sir).score ≤ 100 ∧
    (validatePerformance sir generatedCode).score ≤ 100 ∧
    (validateCompliance sir).score ≤ 100 ∧
    (validateFlexing sir).score ≤ 100 ∧
    (validateMetadata sir).score ≤ 100 := by
  refine ⟨?_, ?_, ?_, ?_, ?_, ?_⟩
  · simp only [validateGeometry]
    set r1 := (if sir.geometryDefinition.extrusions.length = 0 then
        addIssue freshResult ( "No extrusions defined in geometry") 30
      else freshResult) with hr1
    have h1 : r1.score ≤ 100 := by rw [hr1]; split_ifs <;> simp [freshResult]
    have h3 : (sir.geometryDefinition.constraints.enum.foldl geomConstraintCheck
        (sir.geometryDefinition.referencePlanes.foldl geomPlaneCheck
          (sir.geometryDefinition.extrusions.foldl geomExtrusionCheck r1))).score ≤ 100 :=
      le_trans (geomFolds_score_le sir.geometryDefinition r1) h1
    split_ifs <;> simp <;> omega
  · simp only [validateParameters]
    set r1 := (if sir.parameters.familyParameters.length = 0 then
        addIssue freshResult ( "No family parameters defined") 40
      else freshResult) with hr1
    have h1 : r1.score ≤ 100 := by rw [hr1]; split_ifs <;> simp [freshResult]
    set rs := sir.parameters.familyParameters.foldl
      (paramCheck sir.parameters.familyParameters) (r1, []) with hrs
    have h2 : rs.1.score ≤ r1.score := by
      rw [hrs]
      exact foldl_proj_mono (·.1.score) (paramCheck sir.parameters.familyParameters)
        (paramCheck_score_le sir.parameters.familyParameters) _ _
    have h3 := foldl_proj_mono (σ := ValidationResult) (·.score)
      (fun r ep =>
        if ¬ rs.2.contains ep then
          addWarning r ( "Missing essential parameter: " ++ ep) 5
        else r)
      (by intro s x; dsimp only; split_ifs <;> simp)
      (getEssentialParameters sir.familyMetadata.category) rs.1
    have h4 := foldl_proj_mono (σ := ValidationResult) (·.score)
      (typeCheck sir.parameters.familyParameters)
      (typeCheck_score_le sir.parameters.familyParameters)
      sir.parameters.familyTypes.enum
      ((getEssentialParameters sir.familyMetadata.category).foldl
        (fun r ep =>
          if ¬ rs.2.contains ep then
            addWarning r ( "Missing essential parameter: " ++ ep) 5
          else r) rs.1)
    exact le_trans h4 (le_trans h3 (le_trans h2 h1))
  · simp only [validatePerformance]
    split_ifs <;> simp [freshResult]
  · exact le_of_eq (show (validateCompliance sir).score = 100 from rfl)
  · simp only [validateFlexing]
    rw [show ∀ R : ValidationResult,
        complianceStep R (validateConstraintDependencies sir.geometryDefinition.constraints)
          = R from fun R => rfl]
    exact le_trans
      (foldl_proj_mono (·.score) (flexStep sir.parameters.familyParameters)
        (flexStep_score_le sir.parameters.familyParameters) _ _)
      (by simp [freshResult])
  · simp only [validateMetadata]
    split_ifs <;> simp [freshResult]

/-- C8: for a fixed simulated job the derived progress is monotonically
non-decreasing in elapsed time, and it equals exactly 100 if and only if the
derived status is `success`. -/
theorem claim_C8 :
    (∀ e1 e2 : ℚ, e1 ≤ e2 → simProgress e1 ≤ simProgress e2) ∧
    (∀ e : ℚ, simProgress e = 100 ↔ simStatus e = "success") := by
  constructor
  · intro e1 e2 h
    rcases lt_or_le e1 3 with a1 | a1
    · rw [simProgress_phase1 a1]
      rcases lt_or_le e2 3 with b1 | b1
      · rw [simProgress_phase1 b1]; linarith
      · rcases lt_or_le e2 8 with b2 | b2
        · rw [simProgress_phase2 b1 b2]; linarith
        · rcases lt_or_le e2 15 with b3 | b3
          · rw [simProgress_phase3 b2 b3]; linarith
          · rw [simProgress_phase4 b3]; linarith
    · rcases lt_or_le e1 8 with a2 | a2
      · rw [simProgress_phase2 a1 a2]
        rcases lt_or_le e2 8 with b2 | b2
        · rw [simProgress_phase2 (by linarith) b2]; linarith
        · rcases lt_or_le e2 15 with b3 | b3
          · rw [simProgress_phase3 b2 b3]; linarith
          · rw [simProgress_phase4 b3]; linarith
      · rcases lt_or_le e1 15 with a3 | a3
        · rw [simProgress_phase3 a2 a3]
          rcases lt_or_le e2 15 with b3 | b3
          · rw [simProgress_phase3 (by linarith) b3]; linarith
          · rw [simProgress_phase4 b3]; linarith
        · rw [simProgress_phase4 a3, simProgress_phase4 (by linarith)]
  · intro e
    rcases lt_or_le e 3 with a | a
    · rw [simProgress_phase1 a, simStatus_phase1 a]
      constructor
      · intro h; exfalso; nlinarith
      · intro h; exact absurd h (by decide)
    · rcases lt_or_le e 8 with b | b
      · rw [simProgress_phase2 a b, simStatus_phase2 a b]
        constructor
        · intro h; exfalso; nlinarith
        · intro h; exact absurd h (by decide)
      · rcases lt_or_le e 15 with c | c
        · rw [simProgress_phase3 b c, simStatus_phase3 b c]
          constructor
          · intro h; exfalso; nlinarith
          · intro h; exact absurd h (by decide)
        · rw [simProgress_phase4 c, simStatus_phase4 c]
          exact ⟨fun _ => rfl, fun _ => rfl⟩

/-- C8 (witness): monotonicity applied at elapsed times 2 and 9, and the
100-iff-success equivalence at elapsed time 20. -/
theorem claim_C8_witness :
    simProgress 2 ≤ simProgress 9 ∧ (simProgress 20 = 100 ↔ simStatus 20 = "success") :=
  ⟨claim_C8.1 2 9 (by norm_num), claim_C8.2 20⟩

/-- C10: polling the simulated status route updates only the `status`,
`progress`, `message` and `lastChecked` fields of the stored workitem
record; `id`, `createdAt`, `params`, `bucketKey` and `outputObjectKey` are
unchanged by every poll. -/
theorem claim_C10 {P : Type} (w : WorkitemData P) (now : ℚ) :
    (pollUpdate w now).id = w.id ∧
    (pollUpdate w now).createdAt = w.createdAt ∧
    (pollUpdate w now).params = w.params ∧
    (pollUpdate w now).bucketKey = w.bucketKey ∧
    (pollUpdate w now).outputObjectKey = w.outputObjectKey ∧
    (pollUpdate w now).status = simStatus ((now - w.createdAt) / 1000) ∧
    (pollUpdate w now).progress = simProgress ((now - w.createdAt) / 1000) ∧
    (pollUpdate w now).message = simMessage ((now - w.createdAt) / 1000) ∧
    (pollUpdate w now).lastChecked = some now :=
  ⟨rfl, rfl, rfl, rfl, rfl, rfl, rfl, rfl, rfl⟩

/-- C1 (counterexample): a submission failure with a configuration-class
error (status code 400) is not replaced by the simulated fallback — the
catch handler of `createFamilyWithAPS` re-throws it as a configuration
error, so the error does reach the caller. -/
theorem claim_C1_counterexample :
    handleLocalSubmitError (P := Unit)
      { statusCode := some 400, message := "Request failed with status code 400" }
      () 0 "aps_1700000000000_abc" = .error configErrorMessage := rfl

/-- C1 (amended): the catch handler treats the two error classes the
opposite way round from the claim — a configuration-class error
(status 400 or a message containing `400`) is propagated to the caller as
an explicit configuration error, while every other (transient) failure is
absorbed by registering a simulated fallback workitem and reporting
success. -/
theorem claim_C1_amended {P : Type} (err : JsError) (params : P) (now : ℚ)
    (simulatedId : String) :
    (isConfigurationError err = true →
      handleLocalSubmitError err params now simulatedId = .error configErrorMessage) ∧
    (isConfigurationError err = false →
      handleLocalSubmitError err params now simulatedId =
        .ok { workItemId := simulatedId, workItemStatus := "submitted",
              record :=
                { id := simulatedId, status := "submitted", createdAt := now,
                  params := params, apsParams := params, progress := 0,
                  message := "Workitem submitted to APS Design Automation",
                  estimatedTime := "15 seconds", isRealAPS := true,
                  bucketKey := "temp-bucket-" ++ simulatedId,
                  outputObjectKey := "temp-object-" ++ simulatedId,
                  lastChecked := none } }) := by
  constructor <;> intro h <;> simp [handleLocalSubmitError, h]

/-- C1 (witness): a transient error (no status code, no `400` in the
message) falls back to a simulated workitem; a 400 error propagates. -/
theorem claim_C1_witness :
    handleLocalSubmitError (P := Unit) { statusCode := none, message := "socket hang up" }
      () 5 "aps_2_z" =
      .ok { workItemId := "aps_2_z", workItemStatus := "submitted",
            record :=
              { id := "aps_2_z", status := "submitted", createdAt := 5,
                params := (), apsParams := (), progress := 0,
                message := "Workitem submitted to APS Design Automation",
                estimatedTime := "15 seconds", isRealAPS := true,
                bucketKey := "temp-bucket-" ++ "aps_2_z",
                outputObjectKey := "temp-object-" ++ "aps_2_z",
                lastChecked := none } } ∧
    handleLocalSubmitError (P := Unit) { statusCode := some 400, message := "boom" }
      () 5 "aps_2_z" = .error configErrorMessage :=
  ⟨(claim_C1_amended { statusCode := none, message := "socket hang up" } () 5 "aps_2_z").2
      (by decide),
   (claim_C1_amended { statusCode := some 400, message := "boom" } () 5 "aps_2_z").1
      (by decide)⟩

/-- C4: SIR generation never propagates a model-call, JSON-parse or
structural-validation failure: the result always reports success, and on
any of the three failure classes it is exactly the Heuristic Extractor's
(demo) result. -/
theorem claim_C4 (demoMode : Bool) (modelReply : Except String String)
    (parseJson : String → Option SIR) (prompt sid now : String) :
    (generateSIR demoMode modelReply parseJson prompt sid now).success = true ∧
    (∀ msg, modelReply = .error msg →
      generateSIR demoMode modelReply parseJson prompt sid now =
        generateDemoSIR prompt sid now) ∧
    (∀ text, modelReply = .ok text → parseSIRResponse parseJson text = none →
      generateSIR demoMode modelReply parseJson prompt sid now =
        generateDemoSIR prompt sid now) ∧
    (∀ text sir, modelReply = .ok text → parseSIRResponse parseJson text = some sir →
      validateSIRb sir = false →
      generateSIR demoMode modelReply parseJson prompt sid now =
        generateDemoSIR prompt sid now) := by
  have hdemo : ∀ p s n, (generateDemoSIR p s n).success = true := fun _ _ _ => rfl
  refine ⟨?_, ?_, ?_, ?_⟩
  · unfold generateSIR
    split_ifs with hmode
    · exact hdemo prompt sid now
    · rcases modelReply with msg | text
      · exact hdemo prompt sid now
      · rcases hpar : parseSIRResponse parseJson text with _ | sir
        · simp only [hpar]
          exact hdemo prompt sid now
        · simp only [hpar]
          split_ifs with hval
          · rfl
          · exact hdemo prompt sid now
  · intro msg hm
    subst hm
    unfold generateSIR
    split_ifs <;> rfl
  · intro text hm hpar
    subst hm
    unfold generateSIR
    split_ifs with hmode
    · rfl
    · simp [hpar]
  · intro text sir hm hpar hval
    subst hm
    unfold generateSIR
    split_ifs with hmode
    · rfl
    · simp [hpar, hval]

/-- C4 (witness): a failed model call and an unparsable reply both yield
exactly the demo result, and generation reports success on them. -/
theorem claim_C4_witness :
    (generateSIR false (.error "boom") (fun _ => none) "p" "s" "t").success = true ∧
    generateSIR false (.error "boom") (fun _ => none) "p" "s" "t" =
      generateDemoSIR "p" "s" "t" ∧
    generateSIR false (.ok "no json here") (fun _ => none) "p" "s" "t" =
      generateDemoSIR "p" "s" "t" ∧
    generateSIR false (.ok "\x7b\x7d") (fun _ => some noDimsSIR) "p" "s" "t" =
      generateDemoSIR "p" "s" "t" :=
  ⟨(claim_C4 false (.error "boom") (fun _ => none) "p" "s" "t").1,
   (claim_C4 false (.error "boom") (fun _ => none) "p" "s" "t").2.1 "boom" rfl,
   (claim_C4 false (.ok "no json here") (fun _ => none) "p" "s" "t").2.2.1
     "no json here" rfl rfl,
   (claim_C4 false (.ok "\x7b\x7d") (fun _ => some noDimsSIR) "p" "s" "t").2.2.2
     "\x7b\x7d" noDimsSIR rfl rfl (by decide)⟩

/-- `List.find?` returns the first element satisfying the predicate when
everything before it fails the predicate. -/
lemma find?_first {α : Type} (pred : α → Bool) (ps1 : List α) (p : α) (ps2 : List α)
    (h1 : ∀ q ∈ ps1, ¬ pred q = true) (h2 : pred p = true) :
    List.find? pred (ps1 ++ p :: ps2) = some p := by
  induction ps1 with
  | nil => simp [List.find?_cons, h2]
  | cons a l ih =>
    have ha : pred a = false := by simpa using h1 a (List.mem_cons_self a l)
    simp [List.find?_cons, ha, ih (fun q hq => h1 q (List.mem_cons_of_mem a hq))]

/-- C6 (counterexample): on a SIR with no width- or height-named family
parameter, the conversion submits the fallback dimensions 200 and 1100 —
not the claimed fixed defaults 2 ft and 4 ft (those appear only in the
error-recovery branch). -/
theorem claim_C6_counterexample :
    ((convertSIRToAPSParams noDimsSIR).windowParams.types.map
      (fun t => (t.windowWidth, t.windowHeight))) =
      [ (JVal.num 200, JVal.num 1100)] ∧
    JVal.num 200 ≠ JVal.num 2 ∧ JVal.num 1100 ≠ JVal.num 4 :=
  ⟨rfl, by decide, by decide⟩

/-- C6 (amended): when the conversion's window-type analysis does not
throw, the submitted width (resp. height) is the default value of the first
family parameter whose name contains `width` (resp. `height`)
case-insensitively, provided that value is truthy; when no such parameter
exists the fallbacks are 200 for width and 1100 for height.  The fixed
2 ft / 4 ft defaults are used only by the catch branch. -/
theorem claim_C6_amended (sir : SIR) (hok : convertAnalysisOk sir = true) :
    (∀ ps1 p ps2 v, sir.parameters.familyParameters = ps1 ++ p :: ps2 →
      (∀ q ∈ ps1, ¬ strIncludes (lowerStr q.name) "width" = true) →
      strIncludes (lowerStr p.name) "width" = true →
      p.defaultValue = some v → jvalTruthy v = true →
      (convertSIRToAPSParams sir).windowParams.types.map (·.windowWidth) = [ v]) ∧
    ((∀ q ∈ sir.parameters.familyParameters,
        ¬ strIncludes (lowerStr q.name) "width" = true) →
      (convertSIRToAPSParams sir).windowParams.types.map (·.windowWidth) =
        [ JVal.num 200]) ∧
    (∀ ps1 p ps2 v, sir.parameters.familyParameters = ps1 ++ p :: ps2 →
      (∀ q ∈ ps1, ¬ strIncludes (lowerStr q.name) "height" = true) →
      strIncludes (lowerStr p.name) "height" = true →
      p.defaultValue = some v → jvalTruthy v = true →
      (convertSIRToAPSParams sir).windowParams.types.map (·.windowHeight) = [ v]) ∧
    ((∀ q ∈ sir.parameters.familyParameters,
        ¬ strIncludes (lowerStr q.name) "height" = true) →
      (convertSIRToAPSParams sir).windowParams.types.map (·.windowHeight) =
        [ JVal.num 1100]) := by
  refine ⟨?_, ?_, ?_, ?_⟩
  · intro ps1 p ps2 v heq hnone hp hdv htr
    have hfind : sir.parameters.familyParameters.find?
        (fun q => strIncludes (lowerStr q.name) "width") = some p := by
      rw [heq]
      exact find?_first _ ps1 p ps2 hnone hp
    simp [convertSIRToAPSParams, hok, hfind, hdv, htr]
  · intro hnone
    have hfind : sir.parameters.familyParameters.find?
        (fun q => strIncludes (lowerStr q.name) "width") = none :=
      List.find?_eq_none.mpr hnone
    simp [convertSIRToAPSParams, hok, hfind]
  · intro ps1 p ps2 v heq hnone hp hdv htr
    have hfind : sir.parameters.familyParameters.find?
        (fun q => strIncludes (lowerStr q.name) "height") = some p := by
      rw [heq]
      exact find?_first _ ps1 p ps2 hnone hp
    simp [convertSIRToAPSParams, hok, hfind, hdv, htr]
  · intro hnone
    have hfind : sir.parameters.familyParameters.find?
        (fun q => strIncludes (lowerStr q.name) "height") = none :=
      List.find?_eq_none.mpr hnone
    simp [convertSIRToAPSParams, hok, hfind]

/-- C6 (witness): the first-match rule applied to a SIR with `Width` and
`Height` parameters (values 7 and 9), and the 200 fallback on a SIR with no
matching parameter. -/
theorem claim_C6_witness :
    (convertSIRToAPSParams c6WitnessSIR).windowParams.types.map (·.windowWidth) =
      [ JVal.num 7] ∧
    (convertSIRToAPSParams c6WitnessSIR).windowParams.types.map (·.windowHeight) =
      [ JVal.num 9] ∧
    (convertSIRToAPSParams noDimsSIR).windowParams.types.map (·.windowWidth) =
      [ JVal.num 200] := by
  refine ⟨?_, ?_, ?_⟩
  · exact (claim_C6_amended c6WitnessSIR (by decide)).1 []
      { name := "Width", ptype := "Length", group := none, isInstance := true,
        defaultValue := some (.num 7), formula := none }
      [ { name := "Height", ptype := "Length", group := none, isInstance := true,
          defaultValue := some (.num 9), formula := none }]
      (JVal.num 7) rfl (by simp) (by decide) rfl (by decide)
  · exact (claim_C6_amended c6WitnessSIR (by decide)).2.2.1
      [ { name := "Width", ptype := "Length", group := none, isInstance := true,
          defaultValue := some (.num 7), formula := none }]
      { name := "Height", ptype := "Length", group := none, isInstance := true,
        defaultValue := some (.num 9), formula := none }
      [] (JVal.num 9) rfl (by decide) (by decide) rfl (by decide)
  · exact (claim_C6_amended noDimsSIR (by decide)).2.1 (by simp [noDimsSIR])

/-- The dimension extraction evaluated on the specification's example
prompt: 900 mm, 1200 mm and 900 mm convert to 375/127 ft, 500/127 ft and
375/127 ft; the inset keeps its 0.05 ft default and no materials are
recognised. -/
lemma extractDims_c5 :
    extractDims ((lowerStr c5Prompt).data) =
      { width := 375 / 127, height := 500 / 127, sillHeight := 375 / 127,
        inset := 1 / 20, glassMaterial := "Default", sashMaterial := "Default" } := by
  have hw : findFirstCapture regexFuel widthMmAlts ((lowerStr c5Prompt).data) =
      some [ '9', '0', '0'] := by decide
  have hh : findFirstCapture regexFuel heightMmAlts ((lowerStr c5Prompt).data) =
      some [ '1', '2', '0', '0'] := by decide
  have hs : findFirstCapture regexFuel sillMmAlts ((lowerStr c5Prompt).data) =
      some [ '9', '0', '0'] := by decide
  have him : findFirstCapture regexFuel insetMmAlts ((lowerStr c5Prompt).data) = none := by
    decide
  have hii : findFirstCapture regexFuel insetInchAlts ((lowerStr c5Prompt).data) = none := by
    decide
  have hif : findFirstCapture regexFuel insetFtAlts ((lowerStr c5Prompt).data) = none := by
    decide
  have hg : hasSub [ 'g', 'l', 'a', 's', 's'] ((lowerStr c5Prompt).data) = false := by decide
  have hwd : hasSub [ 'w', 'o', 'o', 'd'] ((lowerStr c5Prompt).data) = false := by decide
  have ht : hasSub [ 't', 'i', 'm', 'b', 'e', 'r'] ((lowerStr c5Prompt).data) = false := by
    decide
  have hm : hasSub [ 'm', 'e', 't', 'a', 'l'] ((lowerStr c5Prompt).data) = false := by decide
  have hst : hasSub [ 's', 't', 'e', 'e', 'l'] ((lowerStr c5Prompt).data) = false := by decide
  have ha : hasSub [ 'a', 'l', 'u', 'm', 'i', 'n', 'u', 'm'] ((lowerStr c5Prompt).data) =
      false := by decide
  unfold extractDims
  rw [hw, hh, hs, him, hii, hif, hg, hwd, ht, hm, hst, ha]
  simp only [show ('9'.toNat - 48 : ℕ) = 9 from rfl, show ('0'.toNat - 48 : ℕ) = 0 from rfl,
    show ('1'.toNat - 48 : ℕ) = 1 from rfl, show ('2'.toNat - 48 : ℕ) = 2 from rfl, parseIntQ,
    List.foldl]
  norm_num [mmPerFoot]

/-- C5: on the heuristic path, the prompt "Create a 900 mm wide, 1200 mm
high double-hung window with 900 mm sill height" yields a SIR whose family
parameters carry width 900/304.8 ft, height 1200/304.8 ft, sill height
900/304.8 ft and the default inset 0.05 ft, whose category is `Windows`,
and whose backend conversion submits window style `DoubleHungWindow`. -/
theorem claim_C5 :
    ((generateDemoSIR c5Prompt "session-1" "t0").sir.parameters.familyParameters.map
      (fun p => (p.name, p.defaultValue))) =
      [ ( "Width", some (JVal.num (900 / (304.8 : ℚ)))),
        ( "Height", some (JVal.num (1200 / (304.8 : ℚ)))),
        ( "SillHeight", some (JVal.num (900 / (304.8 : ℚ)))),
        ( "Inset", some (JVal.num (0.05 : ℚ))),
        ( "GlassPaneMaterial", some (JVal.str "Default")),
        ( "SashMaterial", some (JVal.str "Default"))] ∧
    (generateDemoSIR c5Prompt "session-1" "t0").sir.familyMetadata.category = "Windows" ∧
    (convertSIRToAPSParams
        (generateDemoSIR c5Prompt "session-1" "t0").sir).windowParams.windowStyle =
      "DoubleHungWindow" := by
  have hpar : (generateDemoSIR c5Prompt "session-1" "t0").sir.parameters.familyParameters =
      demoFamilyParameters (extractDims ((lowerStr c5Prompt).data)) := rfl
  refine ⟨?_, ?_, ?_⟩
  · rw [hpar, extractDims_c5]
    simp [demoFamilyParameters]
    norm_num
  · decide
  · decide

/-- The metadata fields of a successful emission, characterised one by one:
everything except `codeLength` and `generatedAt` is a function of the SIR
alone, and `generatedAt` is the invocation timestamp. -/
lemma emitOk_metadata_fields (sir : SIR) (t : String) :
    (emitOk sir t).2.familyName = sir.familyMetadata.familyName ∧
    (emitOk sir t).2.category = sir.familyMetadata.category ∧
    (emitOk sir t).2.lodLevel = sir.familyMetadata.lodLevel ∧
    (emitOk sir t).2.estimatedExecutionTime = estimateExecutionTime sir ∧
    (emitOk sir t).2.complexityScore = calculateComplexityScore sir ∧
    (emitOk sir t).2.performanceOptimizations = getAppliedOptimizations sir ∧
    (emitOk sir t).2.generatedAt = t :=
  ⟨rfl, rfl, rfl, rfl, rfl, rfl, rfl⟩

/-- C7 (counterexample): the code emitter is not deterministic across
invocations — it embeds the invocation wall-clock time.  On a fixed valid
SIR (LOD 300), two invocations at different timestamps produce different
code strings (the `# Generated at:` comment survives, since comments are
stripped only at LOD ≤ 200) and different metadata (the `generatedAt`
field). -/
theorem claim_C7_counterexample :
    translateSIRToCode c7SIR "2024-01-01T00:00:00.000Z" =
      .ok (emitOk c7SIR "2024-01-01T00:00:00.000Z") ∧
    (emitOk c7SIR "2024-01-01T00:00:00.000Z").1 ≠
      (emitOk c7SIR "2024-01-02T00:00:00.000Z").1 ∧
    (emitOk c7SIR "2024-01-01T00:00:00.000Z").2 ≠
      (emitOk c7SIR "2024-01-02T00:00:00.000Z").2 := by
  refine ⟨?_, ?_, ?_⟩
  · unfold translateSIRToCode
    rw [if_pos (show interpValidSIR c7SIR = true from by decide)]
  · intro h
    exact absurd (congrArg (fun s => s.data.take 400) h)
      (by set_option maxRecDepth 8000 in decide)
  · intro h
    exact absurd (congrArg ExecMetadata.generatedAt h) (by decide)

/-- C7 (amended): the emitter is a pure function of the SIR and the
invocation timestamp.  For a valid SIR the translation succeeds, every
metadata field other than the generation timestamp (and the code length,
which inherits the timestamp's length) is independent of the invocation
time, and `generatedAt` records the invocation time itself. -/
theorem claim_C7_amended (sir : SIR) (t1 t2 : String) (h : interpValidSIR sir = true) :
    translateSIRToCode sir t1 = .ok (emitOk sir t1) ∧
    (emitOk sir t1).2.familyName = (emitOk sir t2).2.familyName ∧
    (emitOk sir t1).2.category = (emitOk sir t2).2.category ∧
    (emitOk sir t1).2.lodLevel = (emitOk sir t2).2.lodLevel ∧
    (emitOk sir t1).2.estimatedExecutionTime = (emitOk sir t2).2.estimatedExecutionTime ∧
    (emitOk sir t1).2.complexityScore = (emitOk sir t2).2.complexityScore ∧
    (emitOk sir t1).2.performanceOptimizations =
      (emitOk sir t2).2.performanceOptimizations ∧
    (emitOk sir t1).2.generatedAt = t1 :=
  ⟨by unfold translateSIRToCode; rw [if_pos h],
   ((emitOk_metadata_fields sir t1).1).trans ((emitOk_metadata_fields sir t2).1).symm,
   ((emitOk_metadata_fields sir t1).2.1).trans ((emitOk_metadata_fields sir t2).2.1).symm,
   ((emitOk_metadata_fields sir t1).2.2.1).trans
     ((emitOk_metadata_fields sir t2).2.2.1).symm,
   ((emitOk_metadata_fields sir t1).2.2.2.1).trans
     ((emitOk_metadata_fields sir t2).2.2.2.1).symm,
   ((emitOk_metadata_fields sir t1).2.2.2.2.1).trans
     ((emitOk_metadata_fields sir t2).2.2.2.2.1).symm,
   ((emitOk_metadata_fields sir t1).2.2.2.2.2.1).trans
     ((emitOk_metadata_fields sir t2).2.2.2.2.2.1).symm,
   (emitOk_metadata_fields sir t1).2.2.2.2.2.2⟩

/-- C7 (witness): the amended theorem at the concrete probe SIR and two
concrete timestamps. -/
theorem claim_C7_witness :
    translateSIRToCode c7SIR "TA" = .ok (emitOk c7SIR "TA") ∧
    (emitOk c7SIR "TA").2.familyName = (emitOk c7SIR "TB").2.familyName ∧
    (emitOk c7SIR "TA").2.category = (emitOk c7SIR "TB").2.category ∧
    (emitOk c7SIR "TA").2.lodLevel = (emitOk c7SIR "TB").2.lodLevel ∧
    (emitOk c7SIR "TA").2.estimatedExecutionTime =
      (emitOk c7SIR "TB").2.estimatedExecutionTime ∧
    (emitOk c7SIR "TA").2.complexityScore = (emitOk c7SIR "TB").2.complexityScore ∧
    (emitOk c7SIR "TA").2.performanceOptimizations =
      (emitOk c7SIR "TB").2.performanceOptimizations ∧
    (emitOk c7SIR "TA").2.generatedAt = "TA" :=
  claim_C7_amended c7SIR "TA" "TB" (by decide)

@[simp] lemma addWarning_issues (r : ValidationResult) (m : String) (d : ℤ) :
    (addWarning r m d).issues = r.issues := rfl

/-- A left fold whose step never touches the issue list never changes it. -/
lemma foldl_issues_eq {α : Type} (step : ValidationResult → α → ValidationResult)
    (h : ∀ r x, (step r x).issues = r.issues) :
    ∀ (l : List α) (r : ValidationResult), (l.foldl step r).issues = r.issues
  | [], _ => rfl
  | x :: xs, r => (foldl_issues_eq step h xs (step r x)).trans (h r x)

/-- Parameter validation of any SIR carrying the heuristic extractor's
parameter section produces no issues at all: the six fixed parameters have
distinct well-formed names and valid types, carry no formulas, and the
single family type binds every name to a value of the declared type; only
the category-dependent essential-parameter warnings can fire. -/
lemma validateParameters_demo_issues (d : DemoDims) (sir : SIR)
    (hp : sir.parameters =
      { familyParameters := demoFamilyParameters d, familyTypes := demoFamilyTypes d }) :
    (validateParameters sir).issues = [] := by
  unfold validateParameters
  rw [hp]
  show ((demoFamilyTypes d).enum.foldl (typeCheck (demoFamilyParameters d))
    ((getEssentialParameters sir.familyMetadata.category).foldl
      (fun r ep =>
        if ¬ ([ "Width", "Height", "SillHeight", "Inset", "GlassPaneMaterial",
            "SashMaterial"] : List String).contains ep then
          addWarning r ( "Missing essential parameter: " ++ ep) 5
        else r)
      freshResult)).issues = []
  rw [show ∀ r : ValidationResult,
      (demoFamilyTypes d).enum.foldl (typeCheck (demoFamilyParameters d)) r = r from
    fun r => rfl]
  exact (foldl_issues_eq _ (fun r x => by split_ifs <;> rfl) _ _).trans rfl

/-- C9: for every input text, the heuristic extractor's SIR has exactly the
six family parameters Width, Height, SillHeight, Inset, GlassPaneMaterial
and SashMaterial — pairwise distinct, each matching the identifier pattern,
each with a type from the valid enumeration — and QA parameter validation
of such a SIR reports no issues whatsoever (in particular no
duplicate-name, name-format or invalid-type issues). -/
theorem claim_C9 (prompt sid now : String) :
    ((generateDemoSIR prompt sid now).sir.parameters.familyParameters.map (·.name)) =
      [ "Width", "Height", "SillHeight", "Inset", "GlassPaneMaterial", "SashMaterial"] ∧
    ((generateDemoSIR prompt sid now).sir.parameters.familyParameters.map (·.name)).Nodup ∧
    (∀ p ∈ (generateDemoSIR prompt sid now).sir.parameters.familyParameters,
      isValidParamName p.name = true ∧ p.ptype ∈ validTypes) ∧
    (validateParameters (generateDemoSIR prompt sid now).sir).issues = [] := by
  refine ⟨rfl, ?_, ?_, ?_⟩
  · rw [show ((generateDemoSIR prompt sid now).sir.parameters.familyParameters.map (·.name)) =
        [ "Width", "Height", "SillHeight", "Inset", "GlassPaneMaterial", "SashMaterial"]
      from rfl]
    decide
  · intro p hp
    have hpar : (generateDemoSIR prompt sid now).sir.parameters.familyParameters =
        demoFamilyParameters (extractDims ((lowerStr prompt).data)) := rfl
    rw [hpar] at hp
    simp only [demoFamilyParameters, List.mem_cons, List.not_mem_nil, or_false] at hp
    rcases hp with h | h | h | h | h | h <;> subst h <;> exact ⟨rfl, by simp [validTypes]⟩
  · exact validateParameters_demo_issues (extractDims ((lowerStr prompt).data))
      (generateDemoSIR prompt sid now).sir rfl

/-- C9 (witness): the per-parameter clause applied to the first (Width)
parameter of the demo SIR built from a concrete prompt. -/
theorem claim_C9_witness :
    isValidParamName
      ({ name := "Width", ptype := "Length", group := none, isInstance := true,
         defaultValue := some (.num (extractDims ((lowerStr "a window").data)).width),
         formula := none } : FamilyParam).name = true ∧
    ({ name := "Width", ptype := "Length", group := none, isInstance := true,
       defaultValue := some (.num (extractDims ((lowerStr "a window").data)).width),
       formula := none } : FamilyParam).ptype ∈ validTypes :=
  (claim_C9 "a window" "s" "t").2.2.1 _ (List.mem_cons_self _ _)

end FamAI

